import Mathlib

/-!
Verification of the FunPay client's message-classification and
session-synchronization engine against its specification.

The Python sources are shallowly embedded: Python strings become lists of
characters (`Str`), dictionaries become functions into `Option`, exceptions
become `Except`, and the mutable two-pass message parser becomes an explicit
fold over a parse state.  Definitions follow the source files
(FunPayAPI/common/parser.py, FunPayAPI/account_mixins/*.py,
FunPayAPI/async_account.py); parts of the repository that are not present
under src/ (the types module with the Message defaults and the phrase-table
message-type classifier) are modelled from the specification and marked as
such in their doc comments.
-/

namespace FunPay

/-- Python strings are modelled as lists of characters (code points). -/
abbrev Str := List Char

/-- Dictionary update: `d[k] = v` for a dictionary modelled as a function
into `Option`. -/
def update1 {α : Type} (m : Nat → Option α) (k : Nat) (v : α) : Nat → Option α :=
  fun a => if a = k then some v else m a

/-- Python truthiness of an optional string: `None` and the empty string are
falsy, every non-empty string is truthy. -/
def truthyStr : Option Str → Bool
  | none => false
  | some s => !s.isEmpty

/-- Python substring containment `needle in haystack`. -/
def containsSub (needle : Str) : Str → Bool
  | [] => needle.isEmpty
  | c :: rest => needle.isPrefixOf (c :: rest) || containsSub needle rest

/-- Python str.lower(), modelled on the ASCII range (the filenames compared
in the source are ASCII). -/
def lowerStr (s : Str) : Str := s.map Char.toLower

/-- Python errors that the embedded code can raise. -/
inductive PyErr where
  | unauthorizedError
  | keyError
  | valueError
  | attributeError
  | accountNotInitiatedError
  | messageNotDelivered (errorText : Option Str)
  deriving DecidableEq, Repr

/-- Python runtime values stored in instance attributes (for the
name-mangling model of claim C3). -/
inductive PyVal where
  | bool (b : Bool)
  | str (s : Str)
  | int (n : Int)
  | noneVal
  | other
  deriving DecidableEq, Repr

/-- String equality through the underlying character lists. -/
def strEq (a b : String) : Bool := a.data == b.data

/-- Python private-name mangling: inside a class body an attribute name with
two leading underscores and no two trailing underscores is rewritten to
underscore + class name + attribute name. -/
def mangle (cls name : String) : String :=
  if "__".data.isPrefixOf name.data && !("__".data.isSuffixOf name.data) then
    "_" ++ cls ++ name
  else name

/-- Attribute lookup on an instance: absent attribute raises AttributeError. -/
def getattrOf (attrs : List (String × PyVal)) (name : String) : Except PyErr PyVal :=
  match attrs.find? (fun p => strEq p.1 name) with
  | some p => .ok p.2
  | none => .error .attributeError

/-- Python truthiness of a runtime value. -/
def truthyVal : PyVal → Bool
  | .bool b => b
  | .str s => !s.isEmpty
  | .int n => n != 0
  | .noneVal => false
  | .other => true

/-- The attribute dictionary of an AsyncAccount right after
AsyncAccount.__init__ (async_account.py lines 55-134): every `self.x = ...`
assignment in document order.  No name-mangled `_AccountMixin__*` attribute
is ever assigned. -/
def asyncAccountInitAttrs : List (String × PyVal) :=
  [("golden_key", .str "key".data),
   ("user_agent", .noneVal),
   ("client", .other),
   ("html", .noneVal),
   ("app_data", .noneVal),
   ("id", .noneVal),
   ("username", .noneVal),
   ("active_sales", .noneVal),
   ("active_purchases", .noneVal),
   ("last_429_err_time", .int 0),
   ("last_flood_err_time", .int 0),
   ("last_multiuser_flood_err_time", .int 0),
   ("_locale", .noneVal),
   ("_default_locale", .noneVal),
   ("_profile_parse_locale", .noneVal),
   ("_chat_parse_locale", .noneVal),
   ("_order_parse_locale", .noneVal),
   ("_lots_parse_locale", .noneVal),
   ("_subcategories_parse_locale", .noneVal),
   ("_set_locale", .noneVal),
   ("currency", .other),
   ("total_balance", .noneVal),
   ("csrf_token", .noneVal),
   ("phpsessid", .noneVal),
   ("last_update", .noneVal),
   ("interlocutor_ids", .other),
   ("_initiated", .bool false),
   ("_saved_chats", .other),
   ("runner", .noneVal),
   ("_logout_link", .noneVal),
   ("_categories", .other),
   ("_sorted_categories", .other),
   ("_subcategories", .other),
   ("_sorted_subcategories", .other),
   ("_bot_character", .str ['⁡']),
   ("_old_bot_character", .str ['⁤'])]

/-- AccountMixin.is_initiated (account.py lines 28-36): the property body is
`return self.__initiated`, which under name mangling reads the attribute
`_AccountMixin__initiated`. -/
def is_initiated_read (attrs : List (String × PyVal)) : Except PyErr PyVal :=
  getattrOf attrs (mangle "AccountMixin" "__initiated")

/-- AccountMixin.bot_character (account.py lines 59-61): reads the mangled
attribute `_AccountMixin__bot_character`. -/
def bot_character_read (attrs : List (String × PyVal)) : Except PyErr PyVal :=
  getattrOf attrs (mangle "AccountMixin" "__bot_character")

/-- AccountMixin.old_bot_character (account.py lines 63-65): reads the
mangled attribute `_AccountMixin__old_bot_character`. -/
def old_bot_character_read (attrs : List (String × PyVal)) : Except PyErr PyVal :=
  getattrOf attrs (mangle "AccountMixin" "__old_bot_character")

/-- The guard `if not self.is_initiated: raise AccountNotInitiatedError()`
that begins the public account methods (e.g. chat.py lines 38-39): first the
property is read (which may itself raise), then its truthiness decides
whether AccountNotInitiatedError is raised. -/
def is_initiated_guard (attrs : List (String × PyVal)) : Except PyErr Unit :=
  match is_initiated_read attrs with
  | .error e => .error e
  | .ok v => if truthyVal v then .ok () else .error .accountNotInitiatedError

/-- Read context of the message parser: the local account's id and username
plus the bot marker strings (async_account.py: `_bot_character = "⁡"` is
U+2061, `_old_bot_character = "⁤"` is U+2064; both one-character strings). -/
structure AccountCtx where
  accountId : Nat
  username : Str
  bot_character : Str
  old_bot_character : Str

/-- Single zero-width character U+2061, value of `_bot_character`. -/
def botCharacter : Char := '⁡'

/-- Single zero-width character U+2064, value of `_old_bot_character`. -/
def oldBotCharacter : Char := '⁤'

/-- Bot-origin marker handling of _parse_messages (parser.py lines 343-346):
the Python condition is
`message_text.startswith(account.bot_character) or
 message_text.startswith(account.old_bot_character) and author_id == account.id`,
which by Python operator precedence parses as `A or (B and C)`; when it
holds, one leading character is stripped and by_bot is set. -/
def bot_strip (acc : AccountCtx) (author_id : Nat) (text : Str) : Str × Bool :=
  if acc.bot_character.isPrefixOf text
      || (acc.old_bot_character.isPrefixOf text && author_id == acc.accountId) then
    (text.drop 1, true)
  else (text, false)

/-- Chat identifiers are ints or strings (parser signatures: chat_id: int | str). -/
inductive ChatId where
  | int : Int → ChatId
  | str : Str → ChatId
  deriving DecidableEq, Repr

/-- Consume one or more decimal digits from the front, returning the rest;
fails when the first character is not a digit. -/
def oneOrMoreDigits : Str → Option Str
  | [] => none
  | c :: rest => if c.isDigit then some (rest.dropWhile Char.isDigit) else none

/-- Full match of the regular expression users-[0-9]+-[0-9]+ (account.py:
PRIVATE_CHAT_ID_RE). -/
def privateChatIdMatch (s : Str) : Bool :=
  if "users-".data.isPrefixOf s then
    match oneOrMoreDigits (s.drop 6) with
    | some ('-' :: rest) =>
      match oneOrMoreDigits rest with
      | some [] => true
      | _ => false
    | _ => false
  else false

/-- AccountMixin.chat_id_private (account.py lines 55-57): an int chat id is
private; a string chat id is private when it fully matches users-N-N. -/
def chat_id_private : ChatId → Bool
  | .int _ => true
  | .str s => privateChatIdMatch s

/-- Modelled from the spec: the message-type enumeration lives in the types
module, which is not under src/; the constructors are the event classes the
parser's role-attribution code names (parser.py lines 384-411) plus
NON_SYSTEM and the spec's unrecognized system event (spec section 4.3). -/
inductive MessageTypes where
  | NON_SYSTEM
  | ORDER_PURCHASED
  | ORDER_CONFIRMED
  | ORDER_CONFIRMED_BY_ADMIN
  | REFUND
  | REFUND_BY_ADMIN
  | NEW_FEEDBACK
  | FEEDBACK_CHANGED
  | FEEDBACK_DELETED
  | NEW_FEEDBACK_ANSWER
  | FEEDBACK_ANSWER_CHANGED
  | FEEDBACK_ANSWER_DELETED
  | UNRECOGNIZED
  deriving DecidableEq, Repr

/-- A profile hyperlink in a message's markup: an anchor whose href contains
/users/; `userId` is the id parsed from the href, `text` the anchor text
(parser.py lines 380-383). -/
structure ProfileLink where
  text : Str
  userId : Nat
  deriving DecidableEq, Repr

/-- The author block of a message's markup (div.media-user-name):
the author name (a.text.strip()), the optional success-label badge span text
and the optional default-label span text (parser.py lines 311-321, 372-374). -/
structure AuthorBlock where
  name : Str
  successBadge : Option Str
  defaultLabel : Option Str
  deriving DecidableEq, Repr

/-- An image-link anchor (a.chat-img-link): optional img alt text (absent
when the anchor has no img tag or the img no alt attribute) and optional
href (parser.py lines 325-328). -/
structure ImageAnchor where
  alt : Option Str
  href : Option Str
  deriving DecidableEq, Repr

/-- The features of one raw message's html fragment that _parse_messages
reads via BeautifulSoup. -/
structure RawHtml where
  authorBlock : Option AuthorBlock
  imageAnchor : Option ImageAnchor
  alertText : Str
  msgText : Str
  profileLinks : List ProfileLink
  deriving DecidableEq, Repr

/-- One entry of the raw message array: id, author id and html fragment. -/
structure RawMessage where
  id : Nat
  author : Nat
  html : RawHtml
  deriving DecidableEq, Repr

/-- Modelled from the spec: the Message domain object lives in the types
module, which is not under src/; fields follow spec section 3 (flags default
false, role flags and initiator fields default unset) together with the
constructor call in parser.py lines 351-352. -/
structure Message where
  id : Nat
  text : Option Str
  chat_id : ChatId
  chat_name : Option Str
  interlocutor_id : Option Nat
  author : Option Str
  author_id : Nat
  html : RawHtml
  image_link : Option Str
  image_name : Option Str
  type : MessageTypes
  badge : Option Str
  by_bot : Bool
  by_vertex : Bool
  is_employee : Bool
  is_support : Bool
  is_moderation : Bool
  is_arbitration : Bool
  is_autoreply : Bool
  i_am_buyer : Option Bool
  i_am_seller : Option Bool
  initiator_username : Option Str
  initiator_id : Option Nat
  deriving DecidableEq, Repr

/-- State threaded through the first pass of _parse_messages: the `ids` and
`badges` dictionaries, the (reassignable) interlocutor_username local and the
accumulated message list.  In `badges`, outer none = author not yet checked,
some none = checked with no badge (the Python 0 sentinel), some (some t) =
badge text t.  In `ids`, none covers both an absent key and a None value
(indistinguishable through dict.get). -/
structure ParseState where
  ids : Nat → Option Str
  badges : Nat → Option (Option Str)
  interlocutor_username : Option Str
  messages : List Message

/-- Initial parse state (parser.py lines 298-302):
ids = {account.id: account.username, 0: "FunPay"}, badges = {}, and when an
interlocutor id is given its (possibly None) username is entered. -/
def init_state (acc : AccountCtx) (interlocutor_id : Option Nat)
    (interlocutor_username : Option Str) : ParseState :=
  let base : Nat → Option Str := fun a =>
    if a = 0 then some "FunPay".data
    else if a = acc.accountId then some acc.username
    else none
  let ids := match interlocutor_id, interlocutor_username with
    | some iid, some name => update1 base iid name
    | some iid, none => fun a => if a = iid then none else base a
    | none, _ => base
  { ids := ids, badges := fun _ => none,
    interlocutor_username := interlocutor_username, messages := [] }

/-- Author name and badge resolution for one record (parser.py lines
311-321): when the author's name or badge is still unknown and the markup
has an author block, the unknown entries are filled in; if this is a private
chat, the author is the interlocutor and no interlocutor username was
supplied, the interlocutor username is backfilled from the author name. -/
def resolve_author (chat_id : ChatId) (interlocutor_id : Option Nat)
    (st : ParseState) (author_id : Nat) (html : RawHtml) : ParseState :=
  match html.authorBlock with
  | none => st
  | some ab =>
    if (st.ids author_id).isNone || (st.badges author_id).isNone then
      let badges' := if (st.badges author_id).isNone
        then update1 st.badges author_id ab.successBadge
        else st.badges
      if (st.ids author_id).isNone then
        let ids' := update1 st.ids author_id ab.name
        if chat_id_private chat_id && (interlocutor_id == some author_id)
            && !truthyStr st.interlocutor_username then
          { st with badges := badges', ids := ids',
                    interlocutor_username := some ab.name }
        else { st with badges := badges', ids := ids' }
      else { st with badges := badges' }
    else st

/-- Content extracted from one record in pass 1. -/
structure Extracted where
  text : Option Str
  image_link : Option Str
  image_name : Option Str
  by_bot : Bool
  by_vertex : Bool
  deriving DecidableEq, Repr

/-- Substring the current bot-stamp filenames share; the source compares
with `"funpay_cardinal" in image_name.lower()` (parser.py line 331). -/
def cardinal_marker : Str := "funpay_cardinal".data

/-- The legacy bot-stamp filename, compared by equality (parser.py line 333). -/
def vertex_image_name : Str := "funpay_vertex_image.png".data

/-- Does an image alt text match the current bot stamp (parser.py line 331)? -/
def matches_current_stamp : Option Str → Bool
  | some s => containsSub cardinal_marker (lowerStr s)
  | none => false

/-- Does an image alt text match the legacy bot stamp (parser.py line 333)? -/
def matches_legacy_stamp (image_name : Option Str) : Bool :=
  image_name == some vertex_image_name

/-- The raw text a record contributes (parser.py lines 338-341): author 0
reads the alert block, every other author the chat-msg-text block. -/
def raw_text_of (author_id : Nat) (html : RawHtml) : Str :=
  if author_id = 0 then html.alertText else html.msgText

/-- Text extraction branch (parser.py lines 336-349): author 0 reads the
alert block, others the chat-msg-text block; then the bot-marker strip. -/
def extract_text (acc : AccountCtx) (author_id : Nat) (html : RawHtml) : Extracted :=
  let message_text := raw_text_of author_id html
  let s := bot_strip acc author_id message_text
  { text := some s.1, image_link := none, image_name := none,
    by_bot := s.2, by_vertex := false }

/-- Image/text dispatch (parser.py lines 325-349): in a private chat whose
markup has an image-link anchor, text is None and the image fields and bot
stamps are taken from the anchor; otherwise the text branch runs. -/
def extract_content (acc : AccountCtx) (chat_id : ChatId) (author_id : Nat)
    (html : RawHtml) : Extracted :=
  match html.imageAnchor with
  | some tag =>
    if chat_id_private chat_id then
      { text := none, image_link := tag.href, image_name := tag.alt,
        by_bot := matches_current_stamp tag.alt,
        by_vertex := !matches_current_stamp tag.alt && matches_legacy_stamp tag.alt }
    else extract_text acc author_id html
  | none => extract_text acc author_id html

/-- Message construction in pass 1 (parser.py lines 351-355): the
constructor call plus the subsequent by_bot/by_vertex/type assignments.
`gmt` stands for Message.get_message_type, the phrase-table classifier of
the missing types module (modelled from the spec, section 4.3, as an
abstract function of the message text). -/
def build_message (gmt : Option Str → MessageTypes) (chat_id : ChatId)
    (interlocutor_id : Option Nat) (chat_name : Option Str) (r : RawMessage)
    (e : Extracted) : Message :=
  { id := r.id, text := e.text, chat_id := chat_id, chat_name := chat_name,
    interlocutor_id := interlocutor_id, author := none, author_id := r.author,
    html := r.html, image_link := e.image_link, image_name := e.image_name,
    type := if r.author ≠ 0 then .NON_SYSTEM else gmt e.text,
    badge := none, by_bot := e.by_bot, by_vertex := e.by_vertex,
    is_employee := false, is_support := false, is_moderation := false,
    is_arbitration := false, is_autoreply := false,
    i_am_buyer := none, i_am_seller := none,
    initiator_username := none, initiator_id := none }

/-- One iteration of pass 1 (parser.py lines 304-357): records with id below
from_id are skipped; otherwise identities are resolved, content extracted
and the message appended. -/
def pass1_step (gmt : Option Str → MessageTypes) (acc : AccountCtx)
    (chat_id : ChatId) (interlocutor_id : Option Nat) (from_id : Nat)
    (st : ParseState) (r : RawMessage) : ParseState :=
  if r.id < from_id then st
  else
    let st1 := resolve_author chat_id interlocutor_id st r.author r.html
    let e := extract_content acc chat_id r.author r.html
    let m := build_message gmt chat_id interlocutor_id st1.interlocutor_username r e
    { st1 with messages := st1.messages ++ [m] }

/-- The whole first pass of _parse_messages as a fold. -/
def pass1 (gmt : Option Str → MessageTypes) (acc : AccountCtx) (chat_id : ChatId)
    (interlocutor_id : Option Nat) (interlocutor_username : Option Str)
    (from_id : Nat) (records : List RawMessage) : ParseState :=
  records.foldl (pass1_step gmt acc chat_id interlocutor_id from_id)
    (init_state acc interlocutor_id interlocutor_username)

/-- Badge phrases for support (parser.py line 366). -/
def support_phrases : List Str := ["поддержка".data, "підтримка".data, "support".data]

/-- Badge phrases for moderation (parser.py line 368). -/
def moderation_phrases : List Str := ["модерация".data, "модерація".data, "moderation".data]

/-- Badge phrases for arbitration (parser.py line 370). -/
def arbitration_phrases : List Str := ["арбитраж".data, "арбітраж".data, "arbitration".data]

/-- Auto-reply label phrases (parser.py line 376). -/
def autoreply_phrases : List Str := ["автовідповідь".data, "автоответ".data, "auto-reply".data]

/-- Message types attributed as buyer-initiated (parser.py lines 384-387). -/
def buyer_initiated_types : List MessageTypes :=
  [.ORDER_PURCHASED, .ORDER_CONFIRMED, .NEW_FEEDBACK, .FEEDBACK_CHANGED, .FEEDBACK_DELETED]

/-- Message types attributed as reply/refund events (parser.py lines 394-395). -/
def reply_types : List MessageTypes :=
  [.NEW_FEEDBACK_ANSWER, .FEEDBACK_ANSWER_CHANGED, .FEEDBACK_ANSWER_DELETED, .REFUND]

/-- The badge value pass 2 assigns to a message (parser.py line 362):
`badges.get(author_id) if badges.get(author_id) != 0 else None`. -/
def pass2_badge : Option (Option Str) → Option Str
  | some (some t) => some t
  | _ => none

/-- Membership of an optional badge string in a phrase tuple. -/
def badge_in (b : Option Str) (phrases : List Str) : Bool :=
  match b with
  | some t => phrases.contains t
  | none => false

/-- The default-label span inside the author block of a message's markup
(parser.py lines 372-374). -/
def default_label_of (html : RawHtml) : Option Str :=
  html.authorBlock.bind (fun ab => ab.defaultLabel)

/-- Does the markup carry an auto-reply default label (parser.py lines
372-377)? -/
def autoreply_label (html : RawHtml) : Bool :=
  match default_label_of html with
  | some t => autoreply_phrases.contains t
  | none => false

/-- Badge flag assignment of pass 2 (parser.py lines 364-371): a truthy
badge sets is_employee, and membership in one of the three phrase tuples
additionally sets the matching role flag. -/
def apply_badge_flags (m : Message) : Message :=
  if truthyStr m.badge then
    if badge_in m.badge support_phrases then
      { m with is_employee := true, is_support := true }
    else if badge_in m.badge moderation_phrases then
      { m with is_employee := true, is_moderation := true }
    else if badge_in m.badge arbitration_phrases then
      { m with is_employee := true, is_arbitration := true }
    else { m with is_employee := true }
  else m

/-- Auto-reply detection of pass 2 (parser.py lines 372-377). -/
def apply_autoreply (m : Message) : Message :=
  match default_label_of m.html with
  | some t => if autoreply_phrases.contains t then { m with is_autoreply := true } else m
  | none => m

/-- Badge fallback of pass 2 (parser.py line 378): when the badge is None
and a default label exists, the badge becomes the default label text. -/
def apply_default_badge (m : Message) : Message :=
  match m.badge, default_label_of m.html with
  | none, some t => { m with badge := some t }
  | _, _ => m

/-- Role attribution of pass 2 (parser.py lines 380-417), reached only for
messages whose type is not NON_SYSTEM: the first profile link supplies the
initiator; buyer-initiated and reply types map the initiator to buyer or
seller by comparison with the local account id; the two admin-mediated
types use the last link's user id when there is more than one link. -/
def set_roles (accountId : Nat) (u : ProfileLink) (us : List ProfileLink)
    (m5 : Message) : Message :=
  if buyer_initiated_types.contains m5.type then
    if u.userId = accountId then
      { m5 with i_am_seller := some false, i_am_buyer := some true }
    else
      { m5 with i_am_seller := some true, i_am_buyer := some false }
  else if reply_types.contains m5.type then
    if u.userId = accountId then
      { m5 with i_am_seller := some true, i_am_buyer := some false }
    else
      { m5 with i_am_seller := some false, i_am_buyer := some true }
  else if !us.isEmpty then
    if m5.type = .ORDER_CONFIRMED_BY_ADMIN then
      if (us.getLastD u).userId = accountId then
        { m5 with i_am_seller := some true, i_am_buyer := some false }
      else
        { m5 with i_am_seller := some false, i_am_buyer := some true }
    else if m5.type = .REFUND_BY_ADMIN then
      if (us.getLastD u).userId = accountId then
        { m5 with i_am_seller := some false, i_am_buyer := some true }
      else
        { m5 with i_am_seller := some true, i_am_buyer := some false }
    else m5
  else m5

/-- Dispatch of the role attribution over the profile links: no link leaves
the message alone, otherwise the first link supplies the initiator and the
buyer/seller decision runs on the updated message. -/
def apply_roles (accountId : Nat) (m : Message) : Message :=
  match m.html.profileLinks with
  | [] => m
  | u :: us =>
    set_roles accountId u us
      { m with initiator_username := some u.text, initiator_id := some u.userId }

/-- One iteration of pass 2 (parser.py lines 359-417). -/
def pass2_message (acc : AccountCtx) (st : ParseState) (m : Message) : Message :=
  let m1 := { m with author := st.ids m.author_id,
                     chat_name := st.interlocutor_username,
                     badge := pass2_badge (st.badges m.author_id) }
  let m2 := apply_badge_flags m1
  let m3 := apply_autoreply m2
  let m4 := apply_default_badge m3
  if m4.type = .NON_SYSTEM then m4 else apply_roles acc.accountId m4

/-- The whole _parse_messages (parser.py lines 295-419): pass 1 builds the
state and message list, pass 2 rewrites every message with the final
identities and attributions. -/
def parse_messages (gmt : Option Str → MessageTypes) (acc : AccountCtx)
    (chat_id : ChatId) (interlocutor_id : Option Nat)
    (interlocutor_username : Option Str) (from_id : Nat)
    (records : List RawMessage) : List Message :=
  let st := pass1 gmt acc chat_id interlocutor_id interlocutor_username from_id records
  st.messages.map (pass2_message acc st)

/-- Python sorted([a, b]) on the two-element id lists of parse_order and
parse_sales. -/
def sortedPair (a b : Nat) : Nat × Nat := if a ≤ b then (a, b) else (b, a)

/-- Decimal rendering of a natural number, as the f-string interpolation does. -/
def natToStr (n : Nat) : Str := (Nat.repr n).data

/-- Private chat id built by parse_order (parser.py lines 588-589):
`id1, id2 = sorted([buyer_id, seller_id]); chat_id = f"users-{id1}-{id2}"`. -/
def parse_order_chat_id (buyer_id seller_id : Nat) : Str :=
  let p := sortedPair buyer_id seller_id
  "users-".data ++ natToStr p.1 ++ "-".data ++ natToStr p.2

/-- Private chat id built by parse_sales (parser.py lines 704-705):
`id1, id2 = sorted([buyer_id, account.id]); chat_id = f"users-{id1}-{id2}"`. -/
def parse_sales_chat_id (buyer_id account_id : Nat) : Str :=
  let p := sortedPair buyer_id account_id
  "users-".data ++ natToStr p.1 ++ "-".data ++ natToStr p.2

/-- Error texts of the per-message flood throttle (chat.py lines 230-232). -/
def flood_phrases : List Str :=
  ["Нельзя отправлять сообщения слишком часто.".data,
   "You cannot send messages too frequently.".data,
   "Не можна надсилати повідомлення занадто часто.".data]

/-- Error texts of the per-recipient flood throttle (chat.py lines 234-236). -/
def multiuser_flood_phrases : List Str :=
  ["Нельзя слишком часто отправлять сообщения разным пользователям.".data,
   "Не можна надто часто надсилати повідомлення різним користувачам.".data,
   "You cannot message multiple users too frequently.".data]

/-- The two send-throttle timestamps of the session (async_account.py lines
79-82). -/
structure SessionTimes where
  last_flood_err_time : Nat
  last_multiuser_flood_err_time : Nat
  deriving DecidableEq, Repr

/-- Error handling of send_message after a 200 response (chat.py lines
229-238): when the response carries an error text, a matching flood phrase
updates the corresponding timestamp to the current time, and in every case
MessageNotDeliveredError carrying the error text is raised. -/
def handle_send_error (error_text : Option Str) (now : Nat) (st : SessionTimes) :
    SessionTimes × Except PyErr Unit :=
  match error_text with
  | none => (st, .ok ())
  | some t =>
    let st' :=
      if flood_phrases.contains t then { st with last_flood_err_time := now }
      else if multiuser_flood_phrases.contains t then
        { st with last_multiuser_flood_err_time := now }
      else st
    (st', .error (.messageNotDelivered (some t)))

/-- Subcategory kinds (enums module): COMMON lots and CURRENCY (chips). -/
inductive SubCategoryTypes where
  | COMMON
  | CURRENCY
  deriving DecidableEq, Repr

/-- A subcategory entity; the back-reference to the owning category is
stored by id. -/
structure SubCategory where
  id : Nat
  name : Str
  type : SubCategoryTypes
  categoryId : Nat
  position : Nat
  deriving DecidableEq, Repr

/-- A category (game) entity with its owned subcategories. -/
structure Category where
  id : Nat
  name : Str
  position : Nat
  subcategories : List SubCategory
  deriving DecidableEq, Repr

/-- An li>a entry of a subcategory list: anchor text and href. -/
structure SubcatEntry where
  name : Str
  link : Str
  deriving DecidableEq, Repr

/-- An ul.list-inline block: its data-id and its li entries. -/
structure SubcatList where
  dataId : Nat
  items : List SubcatEntry
  deriving DecidableEq, Repr

/-- A div.promo-game-item block: game-title data-id, first anchor text,
regional variant buttons (data-id and text) and subcategory lists. -/
structure GameDiv where
  dataId : Nat
  name : Str
  regionalButtons : List (Nat × Str)
  subcatLists : List SubcatList
  deriving DecidableEq, Repr

/-- Python s.split(sep) for a one-character separator. -/
def splitOnChar (sep : Char) : Str → List Str
  | [] => [[]]
  | c :: rest =>
    match splitOnChar sep rest with
    | h :: t => if c = sep then [] :: h :: t else (c :: h) :: t
    | [] => if c = sep then [[], []] else [[c]]

/-- Python int() on a plain digit string. -/
def parseNatDigits (s : Str) : Option Nat :=
  if s.isEmpty || !(s.all Char.isDigit) then none
  else some (s.foldl (fun n c => n * 10 + (c.toNat - '0'.toNat)) 0)

/-- Python l[-2]: the next-to-last element, IndexError when absent. -/
def indexNeg2 {α : Type} (l : List α) : Option α :=
  if 2 ≤ l.length then l.get? (l.length - 2) else none

/-- Subcategory id parsed from a link: `int(link.split("/")[-2])`
(categories.py line 120). -/
def link_subcat_id (link : Str) : Option Nat :=
  (indexNeg2 (splitOnChar '/' link)).bind parseNatDigits

/-- Dictionary assignment on an insertion-ordered association list:
an existing key keeps its place, a new key is appended. -/
def dinsert {α : Type} (l : List (Nat × α)) (k : Nat) (v : α) : List (Nat × α) :=
  if l.any (fun p => p.1 == k) then
    l.map (fun p => if p.1 == k then (k, v) else p)
  else l ++ [(k, v)]

/-- Dictionary lookup on an association list. -/
def dlookup {α : Type} (l : List (Nat × α)) (k : Nat) : Option α :=
  (l.find? (fun p => p.1 == k)).map (fun p => p.2)

/-- The category/subcategory index stored on the account
(async_account.py lines 122-129). -/
structure CategoriesState where
  categories : List Category
  sorted_categories : List (Nat × Category)
  subcategories : List SubCategory
  sorted_common : List (Nat × SubCategory)
  sorted_currency : List (Nat × SubCategory)
  deriving DecidableEq, Repr

/-- The empty index an account starts with. -/
def emptyCategories : CategoriesState := ⟨[], [], [], [], []⟩

/-- Loop state of _setup_categories: the two position counters and the
account's index. -/
structure SetupState where
  gamePos : Nat
  subPos : Nat
  cats : CategoriesState
  deriving DecidableEq, Repr

/-- One li entry of a subcategory list (categories.py lines 116-125):
type from the link, id parsed from the link (ValueError when unparsable),
owning category looked up in regional_games (KeyError when absent), then the
subcategory is appended to the category, the account list and the
type-sorted map. -/
def process_subcat_item (jGameId : Nat) (p : List (Nat × Category) × SetupState)
    (k : SubcatEntry) : Except PyErr (List (Nat × Category) × SetupState) :=
  match link_subcat_id k.link with
  | none => .error .valueError
  | some sid =>
    match dlookup p.1 jGameId with
    | none => .error .keyError
    | some cat =>
      let stype := if containsSub "chips".data k.link then SubCategoryTypes.CURRENCY
        else SubCategoryTypes.COMMON
      let s := p.2
      let sobj : SubCategory := ⟨sid, k.name, stype, cat.id, s.subPos⟩
      let rg' := dinsert p.1 jGameId
        { cat with subcategories := cat.subcategories ++ [sobj] }
      let cats := s.cats
      let cats' := { cats with
        subcategories := cats.subcategories ++ [sobj],
        sorted_common := if stype = SubCategoryTypes.COMMON then
          dinsert cats.sorted_common sid sobj else cats.sorted_common,
        sorted_currency := if stype = SubCategoryTypes.CURRENCY then
          dinsert cats.sorted_currency sid sobj else cats.sorted_currency }
      .ok (rg', { s with subPos := s.subPos + 1, cats := cats' })

/-- One div.promo-game-item (categories.py lines 98-129): the base category,
its regional-variant categories with ascending positions, the subcategory
lists, then every regional game is appended to the account's category lists. -/
def process_game_div (s : SetupState) (g : GameDiv) : Except PyErr SetupState := do
  let rg0 : List (Nat × Category) := [(g.dataId, ⟨g.dataId, g.name, s.gamePos, []⟩)]
  let s0 := { s with gamePos := s.gamePos + 1 }
  let step := g.regionalButtons.foldl
    (fun (p : List (Nat × Category) × SetupState) b =>
      (dinsert p.1 b.1 ⟨b.1, g.name ++ " (".data ++ b.2 ++ ")".data, p.2.gamePos, []⟩,
       { p.2 with gamePos := p.2.gamePos + 1 }))
    (rg0, s0)
  let res ← g.subcatLists.foldlM
    (fun (p : List (Nat × Category) × SetupState) j =>
      j.items.foldlM (process_subcat_item j.dataId) p)
    step
  let cats := res.1.foldl (fun c p =>
    { c with categories := c.categories ++ [p.2],
             sorted_categories := dinsert c.sorted_categories p.1 p.2 }) res.2.cats
  Except.ok { res.2 with cats := cats }

/-- Selection of the game-list container whose game divs are parsed
(categories.py line 92): the second container when more than one exists,
else the first; an empty selection for no container at all. -/
def selected_games_divs : List (List GameDiv) → List GameDiv
  | [] => []
  | t0 :: rest =>
    match rest with
    | [] => t0
    | t1 :: _ => t1

/-- CategoriesMixin._setup_categories (categories.py lines 81-129): no
promo-game-list container or no promo-game-item divs in the selected
container returns the index unchanged; otherwise every game div is processed
in document order with a single ascending category position counter and a
single ascending subcategory position counter. -/
def setup_categories (tables : List (List GameDiv)) (st : CategoriesState) :
    Except PyErr CategoriesState :=
  if tables.isEmpty then .ok st
  else if (selected_games_divs tables).isEmpty then .ok st
  else (selected_games_divs tables).foldlM process_game_div ⟨0, 0, st⟩
    >>= fun s => Except.ok s.cats

/-- The embedded structured blob of the home page body
(data-app-data: locale, userId, csrf-token). -/
structure AppData where
  locale : Option Str
  userId : Nat
  csrfToken : Str
  deriving DecidableEq, Repr

/-- The features of the home page read by parse_account_data: the
authenticated-user marker div (user-link-name), the app-data blob, the
logout link and the badge texts (pre-parsed numerically, the markup
contract guarantees decimal badges), plus the game-list containers. -/
structure HomePage where
  userLinkName : Option Str
  appData : AppData
  logoutHref : Str
  activeSales : Option Nat
  balanceBadge : Option (Nat × Str)
  activePurchases : Option Nat
  gamesTables : List (List GameDiv)
  deriving DecidableEq, Repr

/-- The account fields parse_account_data assigns. -/
structure AccountData where
  username : Str
  locale : Option Str
  userId : Nat
  csrfToken : Str
  logoutLink : Str
  activeSales : Nat
  totalBalance : Nat
  activePurchases : Nat
  deriving DecidableEq, Repr

/-- The account fields parse_account_data assigns from a page whose marker
text is uname (parser.py lines 30-46; absent badges default to 0). -/
def account_data_of (page : HomePage) (uname : Str) : AccountData :=
  { username := uname, locale := page.appData.locale,
    userId := page.appData.userId, csrfToken := page.appData.csrfToken,
    logoutLink := page.logoutHref,
    activeSales := page.activeSales.getD 0,
    totalBalance := (page.balanceBadge.map Prod.fst).getD 0,
    activePurchases := page.activePurchases.getD 0 }

/-- parse_account_data (parser.py lines 22-49): UnauthorizedError exactly at
the missing user-link-name marker; afterwards the account fields are filled
and, unless the account is already initiated, the categories are set up from
the same page. -/
def parse_account_data (page : HomePage) (initiated : Bool) (st : CategoriesState) :
    Except PyErr (AccountData × CategoriesState) :=
  match page.userLinkName with
  | none => .error .unauthorizedError
  | some uname =>
    if initiated then .ok (account_data_of page uname, st)
    else match setup_categories page.gamesTables st with
      | .ok st' => .ok (account_data_of page uname, st')
      | .error e => .error e

/-- A local-id classifier that leaves every system text unrecognized; used
for concrete evaluation. -/
def gmtU : Option Str → MessageTypes := fun _ => .UNRECOGNIZED

/-- A classifier that types every system text as ORDER_CONFIRMED; used for
concrete evaluation. -/
def gmtOC : Option Str → MessageTypes := fun _ => .ORDER_CONFIRMED

/-- A concrete parser context: local account 100 named local, with the real
marker characters. -/
def accDemo : AccountCtx := ⟨100, "local".data, [botCharacter], [oldBotCharacter]⟩

/-- An html fragment with no features. -/
def emptyHtml : RawHtml := ⟨none, none, [], [], []⟩

/-- A fallback message for headD on concrete outputs. -/
def mDefault : Message :=
  build_message gmtU (.int 0) none none ⟨0, 0, emptyHtml⟩ ⟨none, none, none, false, false⟩

/-- A record from author 999 whose text starts with the current bot marker. -/
def c1_html : RawHtml :=
  { authorBlock := none, imageAnchor := none, alertText := [],
    msgText := botCharacter :: "hi".data, profileLinks := [] }

/-- The batch containing only the author-999 marker record. -/
def c1_records : List RawMessage := [⟨10, 999, c1_html⟩]

/-- Parsed output of the author-999 marker record. -/
def c1_out : List Message := parse_messages gmtU accDemo (.int 5) none none 0 c1_records

/-- The single parsed message of the author-999 marker batch. -/
def c1_msg : Message := c1_out.headD mDefault

/-- A record of author 100 (the local account) whose text starts with the
legacy bot marker. -/
def c1_html_legacy : RawHtml :=
  { authorBlock := none, imageAnchor := none, alertText := [],
    msgText := oldBotCharacter :: "ok".data, profileLinks := [] }

/-- Parsed output of the legacy-marker record from the local account. -/
def c1_legacy_out : List Message :=
  parse_messages gmtU accDemo (.int 5) none none 0 [⟨12, 100, c1_html_legacy⟩]

/-- The single parsed message of the legacy-marker batch. -/
def c1_legacy_msg : Message := c1_legacy_out.headD mDefault

/-- A system record (author 0) with one profile hyperlink to user 42. -/
def c2_html : RawHtml :=
  { authorBlock := none, imageAnchor := none,
    alertText := "The buyer Ivan has confirmed order".data, msgText := [],
    profileLinks := [⟨"Ivan".data, 42⟩] }

/-- Parsed output of the one-link system record typed ORDER_CONFIRMED. -/
def c2_out : List Message := parse_messages gmtOC accDemo (.int 5) none none 0 [⟨11, 0, c2_html⟩]

/-- The single parsed message of the one-link system batch. -/
def c2_msg : Message := c2_out.headD mDefault

/-- A concrete per-message flood error text (chat.py line 230). -/
def floodSample : Str := "Нельзя отправлять сообщения слишком часто.".data

/-- A concrete per-recipient flood error text (chat.py line 236). -/
def multiuserSample : Str := "You cannot message multiple users too frequently.".data

/-- A batch of two records in a private chat with interlocutor 7 whose
username arrives only with the second record. -/
def c7_records : List RawMessage :=
  [⟨1, 7, { authorBlock := none, imageAnchor := none, alertText := [],
            msgText := "hello".data, profileLinks := [] }⟩,
   ⟨2, 7, { authorBlock := some ⟨"Alice".data, none, none⟩, imageAnchor := none,
            alertText := [], msgText := "there".data, profileLinks := [] }⟩]

/-- Parsed output of the late-name batch. -/
def c7_out : List Message := parse_messages gmtU accDemo (.int 5) (some 7) none 0 c7_records

/-- The first parsed message of the late-name batch (processed before the
record that supplied the interlocutor name). -/
def c7_msg : Message := c7_out.headD mDefault

/-- A private-chat record carrying a current-stamp image anchor. -/
def c8_html : RawHtml :=
  { authorBlock := none,
    imageAnchor := some ⟨some "funpay_cardinal_image.png".data,
                         some "https://funpay.com/img.png".data⟩,
    alertText := [], msgText := [], profileLinks := [] }

/-- Parsed output of the image batch. -/
def c8_out : List Message := parse_messages gmtU accDemo (.int 5) none none 0 [⟨3, 100, c8_html⟩]

/-- The single parsed message of the image batch. -/
def c8_msg : Message := c8_out.headD mDefault

/-- A record from author 7 whose author block carries the support badge. -/
def c10_html : RawHtml :=
  { authorBlock := some ⟨"Bob".data, some "support".data, none⟩, imageAnchor := none,
    alertText := [], msgText := "hey".data, profileLinks := [] }

/-- The badge batch. -/
def c10_records : List RawMessage := [⟨4, 7, c10_html⟩]

/-- Parsed output of the badge batch. -/
def c10_out : List Message := parse_messages gmtU accDemo (.int 5) none none 0 c10_records

/-- The single parsed message of the badge batch. -/
def c10_msg : Message := c10_out.headD mDefault

/-- A home page without the authenticated-user marker. -/
def c9_page_no_marker : HomePage :=
  ⟨none, ⟨none, 1, "tok".data⟩, "/logout".data, none, none, none, []⟩

/-- A home page with the marker and no game-list container. -/
def c9_page_empty : HomePage :=
  ⟨some "user".data, ⟨none, 1, "tok".data⟩, "/logout".data, none, none, none, []⟩

deriving instance DecidableEq for Except

/-- sorted([a, b]) returns the minimum first and the maximum second. -/
theorem sortedPair_eq (a b : Nat) : sortedPair a b = (min a b, max a b) := by
  unfold sortedPair
  split
  · next h => simp [Nat.min_def, Nat.max_def, h]
  · next h => simp [Nat.min_def, Nat.max_def, h]

/-- sorted([a, b]) ignores argument order. -/
theorem sortedPair_comm (a b : Nat) : sortedPair a b = sortedPair b a := by
  rw [sortedPair_eq, sortedPair_eq, Nat.min_comm, Nat.max_comm]

/-- C6: for all participant ids a and b, the private chat id computed by the
library is the string users-min-max, so it is invariant under swapping the
two ids, and parse_order and parse_sales produce the same chat id no matter
which participant is the buyer and which the seller. -/
theorem claim_C6 (a b : Nat) :
    parse_order_chat_id a b
        = "users-".data ++ natToStr (min a b) ++ "-".data ++ natToStr (max a b)
      ∧ parse_order_chat_id a b = parse_order_chat_id b a
      ∧ parse_sales_chat_id a b = parse_order_chat_id a b
      ∧ parse_sales_chat_id a b = parse_sales_chat_id b a := by
  refine ⟨?_, ?_, rfl, ?_⟩
  · unfold parse_order_chat_id
    rw [sortedPair_eq]
  · unfold parse_order_chat_id
    rw [sortedPair_comm]
  · unfold parse_sales_chat_id
    rw [sortedPair_comm]

/-- C3: on an AsyncAccount as built by __init__, the mixin properties
is_initiated, bot_character and old_bot_character read the name-mangled
attributes _AccountMixin__initiated / _AccountMixin__bot_character /
_AccountMixin__old_bot_character, which __init__ never assigns (it assigns
_initiated / _bot_character / _old_bot_character), so every property read
raises AttributeError, and the is_initiated guard that begins the public
methods fails with AttributeError rather than AccountNotInitiatedError. -/
theorem claim_C3 :
    mangle "AccountMixin" "__initiated" = "_AccountMixin__initiated"
      ∧ is_initiated_read asyncAccountInitAttrs = .error .attributeError
      ∧ bot_character_read asyncAccountInitAttrs = .error .attributeError
      ∧ old_bot_character_read asyncAccountInitAttrs = .error .attributeError
      ∧ is_initiated_guard asyncAccountInitAttrs = .error .attributeError
      ∧ is_initiated_guard asyncAccountInitAttrs ≠ .error .accountNotInitiatedError
      ∧ (asyncAccountInitAttrs.find? (fun p => strEq p.1 "_initiated")).isSome = true
      ∧ (asyncAccountInitAttrs.find? (fun p => strEq p.1 "_bot_character")).isSome = true
      ∧ (asyncAccountInitAttrs.find? (fun p => strEq p.1 "_old_bot_character")).isSome = true := by
  decide

/-- C4 counterexample: on a 200 response whose error text is the Russian
per-message flood phrase, send_message raises MessageNotDeliveredError; the
throttle outcome is not reported as a typed result value, contradicting the
claim at this concrete input. -/
theorem claim_C4_counterexample :
    flood_phrases.contains floodSample = true
      ∧ (handle_send_error (some floodSample) 42 ⟨0, 0⟩).2
          = .error (.messageNotDelivered (some floodSample))
      ∧ (handle_send_error (some floodSample) 42 ⟨0, 0⟩).2 ≠ .ok () := by
  decide

/-- C4 (amended): a per-message flood phrase updates last_flood_err_time to
the current time (leaving the multi-user timestamp alone), a per-recipient
flood phrase updates last_multiuser_flood_err_time (leaving the per-message
timestamp alone), and in either case send_message reports the outcome by
raising MessageNotDeliveredError carrying the error text, not as a typed
result value. -/
theorem claim_C4 (t : Str) (now : Nat) (st : SessionTimes) :
    (flood_phrases.contains t = true →
        (handle_send_error (some t) now st).1.last_flood_err_time = now
        ∧ (handle_send_error (some t) now st).1.last_multiuser_flood_err_time
            = st.last_multiuser_flood_err_time)
    ∧ (flood_phrases.contains t = false → multiuser_flood_phrases.contains t = true →
        (handle_send_error (some t) now st).1.last_multiuser_flood_err_time = now
        ∧ (handle_send_error (some t) now st).1.last_flood_err_time
            = st.last_flood_err_time)
    ∧ (handle_send_error (some t) now st).2 = .error (.messageNotDelivered (some t)) := by
  refine ⟨?_, ?_, rfl⟩
  · intro h
    have h' : t ∈ flood_phrases := by simpa using h
    simp [handle_send_error, h']
  · intro h1 h2
    have h1' : t ∉ flood_phrases := by simpa using h1
    have h2' : t ∈ multiuser_flood_phrases := by simpa using h2
    simp [handle_send_error, h1', h2']

/-- C4 witness: the English per-recipient flood phrase is in the
per-recipient set and updates the multi-user timestamp to the given time. -/
theorem claim_C4_witness :
    multiuser_flood_phrases.contains multiuserSample = true
      ∧ (handle_send_error (some multiuserSample) 7 ⟨1, 2⟩).1.last_multiuser_flood_err_time = 7 := by
  refine ⟨by decide, ?_⟩
  exact ((claim_C4 multiuserSample 7 ⟨1, 2⟩).2.1 (by decide) (by decide)).1

/-- The badge-flag stage only touches the employee and role-badge flags. -/
theorem apply_badge_flags_shape (m : Message) :
    ∃ e s mo ar, apply_badge_flags m =
      { m with is_employee := e, is_support := s, is_moderation := mo,
               is_arbitration := ar } := by
  unfold apply_badge_flags
  repeat' split
  all_goals exact ⟨_, _, _, _, rfl⟩

/-- The auto-reply stage only touches is_autoreply. -/
theorem apply_autoreply_shape (m : Message) :
    ∃ a, apply_autoreply m = { m with is_autoreply := a } := by
  unfold apply_autoreply
  repeat' split
  all_goals exact ⟨_, rfl⟩

/-- The badge-fallback stage only touches the badge field. -/
theorem apply_default_badge_shape (m : Message) :
    ∃ b, apply_default_badge m = { m with badge := b } := by
  unfold apply_default_badge
  repeat' split
  all_goals exact ⟨_, rfl⟩

/-- The buyer/seller decision only touches the two role flags. -/
theorem set_roles_shape (aid : Nat) (u : ProfileLink) (us : List ProfileLink)
    (m5 : Message) :
    ∃ ib isl, set_roles aid u us m5 = { m5 with i_am_buyer := ib, i_am_seller := isl } := by
  unfold set_roles
  repeat' split
  all_goals exact ⟨_, _, rfl⟩

/-- The role-attribution stage only touches the initiator fields and the two
role flags. -/
theorem apply_roles_shape (aid : Nat) (m : Message) :
    ∃ iu ii ib isl, apply_roles aid m =
      { m with initiator_username := iu, initiator_id := ii,
               i_am_buyer := ib, i_am_seller := isl } := by
  rcases h : m.html.profileLinks with _ | ⟨u, us⟩
  · refine ⟨m.initiator_username, m.initiator_id, m.i_am_buyer, m.i_am_seller, ?_⟩
    unfold apply_roles
    rw [h]
  · obtain ⟨ib, isl, hs⟩ := set_roles_shape aid u us
      { m with initiator_username := some u.text, initiator_id := some u.userId }
    refine ⟨some u.text, some u.userId, ib, isl, ?_⟩
    unfold apply_roles
    rw [h]
    exact hs

/-- Pass 2 rewrites author, chat name, badge, the flag fields and the
role/initiator fields, and nothing else. -/
theorem pass2_message_shape (acc : AccountCtx) (st : ParseState) (m : Message) :
    ∃ e s mo ar a b iu ii ib isl,
      pass2_message acc st m =
        { m with author := st.ids m.author_id,
                 chat_name := st.interlocutor_username,
                 badge := b,
                 is_employee := e, is_support := s, is_moderation := mo,
                 is_arbitration := ar, is_autoreply := a,
                 initiator_username := iu, initiator_id := ii,
                 i_am_buyer := ib, i_am_seller := isl } := by
  simp only [pass2_message]
  obtain ⟨e, s, mo, ar, h1⟩ := apply_badge_flags_shape
    { m with author := st.ids m.author_id, chat_name := st.interlocutor_username,
             badge := pass2_badge (st.badges m.author_id) }
  rw [h1]
  obtain ⟨a, h2⟩ := apply_autoreply_shape
    { m with author := st.ids m.author_id, chat_name := st.interlocutor_username,
             badge := pass2_badge (st.badges m.author_id),
             is_employee := e, is_support := s, is_moderation := mo, is_arbitration := ar }
  rw [h2]
  obtain ⟨b, h3⟩ := apply_default_badge_shape
    { m with author := st.ids m.author_id, chat_name := st.interlocutor_username,
             badge := pass2_badge (st.badges m.author_id),
             is_employee := e, is_support := s, is_moderation := mo, is_arbitration := ar,
             is_autoreply := a }
  rw [h3]
  split
  · exact ⟨e, s, mo, ar, a, b, _, _, _, _, rfl⟩
  · obtain ⟨iu, ii, ib, isl, h4⟩ := apply_roles_shape acc.accountId
      { m with author := st.ids m.author_id, chat_name := st.interlocutor_username,
               badge := b,
               is_employee := e, is_support := s, is_moderation := mo, is_arbitration := ar,
               is_autoreply := a }
    rw [h4]
    exact ⟨e, s, mo, ar, a, b, iu, ii, ib, isl, rfl⟩

/-- Identity resolution never changes the accumulated message list. -/
theorem resolve_author_messages (cid : ChatId) (iid : Option Nat) (st : ParseState)
    (a : Nat) (html : RawHtml) :
    (resolve_author cid iid st a html).messages = st.messages := by
  unfold resolve_author
  repeat' split
  all_goals rfl

/-- A record below the from_id floor leaves the pass-1 state untouched. -/
theorem pass1_step_skip (gmt : Option Str → MessageTypes) (acc : AccountCtx)
    (cid : ChatId) (iid : Option Nat) (k : Nat) (st : ParseState) (r : RawMessage)
    (h : r.id < k) : pass1_step gmt acc cid iid k st r = st := by
  unfold pass1_step
  rw [if_pos h]

/-- A record at or above the from_id floor appends exactly one built message. -/
theorem pass1_step_msgs (gmt : Option Str → MessageTypes) (acc : AccountCtx)
    (cid : ChatId) (iid : Option Nat) (k : Nat) (st : ParseState) (r : RawMessage)
    (h : ¬ r.id < k) :
    (pass1_step gmt acc cid iid k st r).messages
      = st.messages ++ [build_message gmt cid iid
          (resolve_author cid iid st r.author r.html).interlocutor_username r
          (extract_content acc cid r.author r.html)] := by
  unfold pass1_step
  rw [if_neg h]
  simp [resolve_author_messages]

/-- The ids accumulated by pass 1 are exactly the ids of the records at or
above the floor, in input order. -/
theorem pass1_fold_ids (gmt : Option Str → MessageTypes) (acc : AccountCtx)
    (cid : ChatId) (iid : Option Nat) (k : Nat) :
    ∀ (rs : List RawMessage) (st : ParseState),
      ((rs.foldl (pass1_step gmt acc cid iid k) st).messages).map (fun m => m.id)
        = st.messages.map (fun m => m.id)
          ++ (rs.filter (fun r => decide (k ≤ r.id))).map (fun r => r.id) := by
  intro rs
  induction rs with
  | nil => intro st; simp
  | cons r rs ih =>
    intro st
    rw [List.foldl_cons, List.filter_cons]
    by_cases h : r.id < k
    · have hd : (decide (k ≤ r.id)) = false := by
        simp only [decide_eq_false_iff_not]
        omega
      rw [hd, pass1_step_skip gmt acc cid iid k st r h]
      simpa using ih st
    · have hd : (decide (k ≤ r.id)) = true := by
        simp only [decide_eq_true_eq]
        omega
      rw [hd]
      rw [ih (pass1_step gmt acc cid iid k st r)]
      rw [pass1_step_msgs gmt acc cid iid k st r h]
      simp [build_message]

/-- Every message accumulated by pass 1 over an initially message-free state
is a built message. -/
theorem pass1_fold_mem (gmt : Option Str → MessageTypes) (acc : AccountCtx)
    (cid : ChatId) (iid : Option Nat) (k : Nat) (P : Message → Prop)
    (hP : ∀ cname r, P (build_message gmt cid iid cname r (extract_content acc cid r.author r.html))) :
    ∀ (rs : List RawMessage) (st : ParseState),
      (∀ m ∈ st.messages, P m) →
      ∀ m ∈ (rs.foldl (pass1_step gmt acc cid iid k) st).messages, P m := by
  intro rs
  induction rs with
  | nil => intro st h; simpa using h
  | cons r rs ih =>
    intro st h
    rw [List.foldl_cons]
    apply ih
    by_cases hlt : r.id < k
    · rw [pass1_step_skip gmt acc cid iid k st r hlt]
      exact h
    · intro m hm
      rw [pass1_step_msgs gmt acc cid iid k st r hlt] at hm
      rcases List.mem_append.mp hm with h1 | h2
      · exact h m h1
      · rw [List.mem_singleton] at h2
        rw [h2]
        exact hP _ r

/-- Every message returned by _parse_messages is the pass-2 rewrite of a
message built from one record, with the final pass-1 state as context. -/
theorem parse_messages_shape (gmt : Option Str → MessageTypes) (acc : AccountCtx)
    (cid : ChatId) (iid : Option Nat) (iname : Option Str) (k : Nat)
    (rs : List RawMessage) :
    ∀ m ∈ parse_messages gmt acc cid iid iname k rs,
      ∃ cname r, m = pass2_message acc (pass1 gmt acc cid iid iname k rs)
          (build_message gmt cid iid cname r (extract_content acc cid r.author r.html)) := by
  intro m hm
  simp only [parse_messages] at hm
  rcases List.mem_map.mp hm with ⟨m0, hm0, rfl⟩
  unfold pass1 at hm0
  obtain ⟨cname, r, hb⟩ := pass1_fold_mem gmt acc cid iid k
      (fun mm => ∃ cname r,
        mm = build_message gmt cid iid cname r (extract_content acc cid r.author r.html))
      (fun cname r => ⟨cname, r, rfl⟩) rs (init_state acc iid iname)
      (by simp [init_state]) m0 hm0
  refine ⟨cname, r, ?_⟩
  rw [hb]

/-- C5: for every raw batch and every threshold k passed as from_id, the
parsed output contains exactly the records whose id is at least k, in the
same relative order as the input array. -/
theorem claim_C5 (gmt : Option Str → MessageTypes) (acc : AccountCtx)
    (cid : ChatId) (iid : Option Nat) (iname : Option Str) (k : Nat)
    (rs : List RawMessage) :
    (parse_messages gmt acc cid iid iname k rs).map (fun m => m.id)
      = (rs.filter (fun r => decide (k ≤ r.id))).map (fun r => r.id) := by
  simp only [parse_messages]
  rw [List.map_map]
  have hcomp : ((fun m => m.id) ∘ pass2_message acc (pass1 gmt acc cid iid iname k rs))
      = (fun (m : Message) => m.id) := by
    funext m
    obtain ⟨e, s, mo, ar, a, b, iu, ii, ib, isl, hS⟩ :=
      pass2_message_shape acc (pass1 gmt acc cid iid iname k rs) m
    simp [Function.comp, hS]
  rw [hcomp]
  unfold pass1
  rw [pass1_fold_ids]
  simp [init_state]

/-- C7: after the second pass, every message in the returned batch carries
the finally resolved interlocutor username as chat_name — including messages
processed before the record that supplied that name — so all messages of the
batch carry the identical name. -/
theorem claim_C7 (gmt : Option Str → MessageTypes) (acc : AccountCtx)
    (cid : ChatId) (iid : Option Nat) (iname : Option Str) (k : Nat)
    (rs : List RawMessage) :
    ∀ m ∈ parse_messages gmt acc cid iid iname k rs,
      m.chat_name = (pass1 gmt acc cid iid iname k rs).interlocutor_username
      ∧ ∀ m' ∈ parse_messages gmt acc cid iid iname k rs,
          m.chat_name = m'.chat_name := by
  have hname : ∀ m ∈ parse_messages gmt acc cid iid iname k rs,
      m.chat_name = (pass1 gmt acc cid iid iname k rs).interlocutor_username := by
    intro m hm
    simp only [parse_messages] at hm
    rcases List.mem_map.mp hm with ⟨m0, hm0, rfl⟩
    obtain ⟨e, s, mo, ar, a, b, iu, ii, ib, isl, hS⟩ :=
      pass2_message_shape acc (pass1 gmt acc cid iid iname k rs) m0
    rw [hS]
  intro m hm
  exact ⟨hname m hm, fun m' hm' => (hname m hm).trans (hname m' hm').symm⟩

/-- C7 witness: in a two-record private chat whose interlocutor name arrives
only with the second record, the first parsed message still carries the
resolved name. -/
theorem claim_C7_witness :
    c7_msg ∈ c7_out
      ∧ (pass1 gmtU accDemo (.int 5) (some 7) none 0 c7_records).interlocutor_username
          = some "Alice".data
      ∧ c7_msg.chat_name = some "Alice".data := by
  refine ⟨by decide, by decide, ?_⟩
  have h := (claim_C7 gmtU accDemo (.int 5) (some 7) none 0 c7_records c7_msg (by decide)).1
  rw [h]
  decide

/-- The bot-marker strip on the text branch: when the Python condition
(current marker, or legacy marker from the local account) holds one leading
character is dropped and by_bot is set; otherwise the text is unchanged and
by_bot stays false. -/
theorem extract_text_strip (acc : AccountCtx) (author : Nat) (html : RawHtml) :
    ((acc.bot_character.isPrefixOf (raw_text_of author html)
        || (acc.old_bot_character.isPrefixOf (raw_text_of author html)
            && (author == acc.accountId))) = true →
      (extract_text acc author html).text = some ((raw_text_of author html).drop 1)
      ∧ (extract_text acc author html).by_bot = true)
    ∧ ((acc.bot_character.isPrefixOf (raw_text_of author html)
        || (acc.old_bot_character.isPrefixOf (raw_text_of author html)
            && (author == acc.accountId))) = false →
      (extract_text acc author html).text = some (raw_text_of author html)
      ∧ (extract_text acc author html).by_bot = false) := by
  constructor <;> intro h <;> simp [extract_text, bot_strip, h]

/-- Field accounting for the pass-2 rewrite of a built message: id, html,
author id, text, image fields, bot stamps and type all come from the record
and its extracted content. -/
theorem pass2_build_fields (gmt : Option Str → MessageTypes) (acc : AccountCtx)
    (cid : ChatId) (iid : Option Nat) (st : ParseState) (cname : Option Str)
    (r : RawMessage) :
    (pass2_message acc st (build_message gmt cid iid cname r
        (extract_content acc cid r.author r.html))).id = r.id
    ∧ (pass2_message acc st (build_message gmt cid iid cname r
        (extract_content acc cid r.author r.html))).html = r.html
    ∧ (pass2_message acc st (build_message gmt cid iid cname r
        (extract_content acc cid r.author r.html))).author_id = r.author
    ∧ (pass2_message acc st (build_message gmt cid iid cname r
        (extract_content acc cid r.author r.html))).text
        = (extract_content acc cid r.author r.html).text
    ∧ (pass2_message acc st (build_message gmt cid iid cname r
        (extract_content acc cid r.author r.html))).by_bot
        = (extract_content acc cid r.author r.html).by_bot
    ∧ (pass2_message acc st (build_message gmt cid iid cname r
        (extract_content acc cid r.author r.html))).by_vertex
        = (extract_content acc cid r.author r.html).by_vertex
    ∧ (pass2_message acc st (build_message gmt cid iid cname r
        (extract_content acc cid r.author r.html))).image_link
        = (extract_content acc cid r.author r.html).image_link
    ∧ (pass2_message acc st (build_message gmt cid iid cname r
        (extract_content acc cid r.author r.html))).image_name
        = (extract_content acc cid r.author r.html).image_name
    ∧ (pass2_message acc st (build_message gmt cid iid cname r
        (extract_content acc cid r.author r.html))).type
        = (if r.author ≠ 0 then .NON_SYSTEM
           else gmt (extract_content acc cid r.author r.html).text) := by
  obtain ⟨e, s, mo, ar, a, b, iu, ii, ib, isl, hS⟩ := pass2_message_shape acc st
    (build_message gmt cid iid cname r (extract_content acc cid r.author r.html))
  rw [hS]
  exact ⟨rfl, rfl, rfl, rfl, rfl, rfl, rfl, rfl, rfl⟩

/-- C1 (amended): on the text path, a message whose extracted text starts
with the current zero-width marker — regardless of author — or starts with
the legacy marker and whose author is the local account, has exactly one
leading character stripped and by_bot set; every other message keeps its
text unchanged with by_bot false.  (The Python condition parses as
A or (B and C), so the author check only guards the legacy marker.) -/
theorem claim_C1 (gmt : Option Str → MessageTypes) (acc : AccountCtx)
    (cid : ChatId) (iid : Option Nat) (iname : Option Str) (k : Nat)
    (rs : List RawMessage) :
    ∀ m ∈ parse_messages gmt acc cid iid iname k rs,
      (m.html.imageAnchor = none ∨ chat_id_private cid = false) →
      ((acc.bot_character.isPrefixOf (raw_text_of m.author_id m.html) = true
          ∨ (acc.old_bot_character.isPrefixOf (raw_text_of m.author_id m.html) = true
              ∧ m.author_id = acc.accountId)) →
          m.text = some ((raw_text_of m.author_id m.html).drop 1) ∧ m.by_bot = true)
      ∧ ((acc.bot_character.isPrefixOf (raw_text_of m.author_id m.html) = false
          ∧ (acc.old_bot_character.isPrefixOf (raw_text_of m.author_id m.html) = false
              ∨ ¬ m.author_id = acc.accountId)) →
          m.text = some (raw_text_of m.author_id m.html) ∧ m.by_bot = false) := by
  intro m hm himg
  obtain ⟨cname, r, rfl⟩ := parse_messages_shape gmt acc cid iid iname k rs m hm
  obtain ⟨hid, hhtml, hauth, htext, hbot, hrest⟩ :=
    pass2_build_fields gmt acc cid iid (pass1 gmt acc cid iid iname k rs) cname r
  rw [hhtml] at himg
  rw [hhtml, hauth, htext, hbot]
  have hext : extract_content acc cid r.author r.html = extract_text acc r.author r.html := by
    unfold extract_content
    cases hia : r.html.imageAnchor with
    | none => rfl
    | some tag =>
      rcases himg with h | h
      · rw [hia] at h
        exact absurd h (by simp)
      · simp [h]
  rw [hext]
  constructor
  · intro hc
    have hcond : (acc.bot_character.isPrefixOf (raw_text_of r.author r.html)
        || (acc.old_bot_character.isPrefixOf (raw_text_of r.author r.html)
            && (r.author == acc.accountId))) = true := by
      rcases hc with h | ⟨h1, h2⟩
      · rw [h]
        simp
      · have hbeq : (r.author == acc.accountId) = true := by simp [h2]
        rw [h1, hbeq]
        simp
    exact (extract_text_strip acc r.author r.html).1 hcond
  · intro hc
    obtain ⟨h1, h2⟩ := hc
    have hcond : (acc.bot_character.isPrefixOf (raw_text_of r.author r.html)
        || (acc.old_bot_character.isPrefixOf (raw_text_of r.author r.html)
            && (r.author == acc.accountId))) = false := by
      rcases h2 with h2 | h2
      · rw [h1, h2]
        simp
      · have hbeq : (r.author == acc.accountId) = false := by simp [h2]
        rw [h1, hbeq]
        simp
    exact (extract_text_strip acc r.author r.html).2 hcond

/-- C1 counterexample: a message from author 999 — not the local account
100 — whose text starts with the current zero-width marker still has the
marker stripped and by_bot set, contradicting the claim that such a message
is left unchanged with by_bot false. -/
theorem claim_C1_counterexample :
    c1_msg.author_id = 999
      ∧ accDemo.accountId = 100
      ∧ c1_msg.html.imageAnchor = none
      ∧ raw_text_of c1_msg.author_id c1_msg.html = botCharacter :: "hi".data
      ∧ c1_msg.by_bot = true
      ∧ c1_msg.text = some "hi".data := by
  decide

/-- C1 witness: a local-account message starting with the legacy marker has
the marker stripped and by_bot set. -/
theorem claim_C1_witness :
    c1_legacy_msg ∈ c1_legacy_out
      ∧ c1_legacy_msg.text = some "ok".data
      ∧ c1_legacy_msg.by_bot = true := by
  have hmem : c1_legacy_msg ∈ c1_legacy_out := by decide
  have h := (claim_C1 gmtU accDemo (.int 5) none none 0 [⟨12, 100, c1_html_legacy⟩]
      c1_legacy_msg hmem (Or.inl (by decide))).1
      (Or.inr ⟨by decide, by decide⟩)
  refine ⟨hmem, ?_, h.2⟩
  rw [h.1]
  decide

/-- With no profile link the role stage leaves the message alone. -/
theorem apply_roles_nil (aid : Nat) (m : Message) (h : m.html.profileLinks = []) :
    apply_roles aid m = m := by
  unfold apply_roles
  rw [h]

/-- With at least one profile link the role stage sets the initiator from
the first link and runs the buyer/seller decision. -/
theorem apply_roles_cons (aid : Nat) (m : Message) (u : ProfileLink)
    (us : List ProfileLink) (h : m.html.profileLinks = u :: us) :
    apply_roles aid m = set_roles aid u us
      { m with initiator_username := some u.text, initiator_id := some u.userId } := by
  unfold apply_roles
  rw [h]

/-- Buyer-initiated branch of the role decision. -/
theorem set_roles_buyer (aid : Nat) (u : ProfileLink) (us : List ProfileLink)
    (m5 : Message) (hb : buyer_initiated_types.contains m5.type = true) :
    set_roles aid u us m5 =
      if u.userId = aid then { m5 with i_am_seller := some false, i_am_buyer := some true }
      else { m5 with i_am_seller := some true, i_am_buyer := some false } := by
  unfold set_roles
  rw [if_pos hb]

/-- Reply/refund branch of the role decision. -/
theorem set_roles_reply (aid : Nat) (u : ProfileLink) (us : List ProfileLink)
    (m5 : Message) (hb : buyer_initiated_types.contains m5.type = false)
    (hr : reply_types.contains m5.type = true) :
    set_roles aid u us m5 =
      if u.userId = aid then { m5 with i_am_seller := some true, i_am_buyer := some false }
      else { m5 with i_am_seller := some false, i_am_buyer := some true } := by
  unfold set_roles
  rw [if_neg (by rw [hb]; exact Bool.false_ne_true), if_pos hr]

/-- Admin-mediated branch of the role decision, reached when the type is in
neither list and there is more than one link. -/
theorem set_roles_admin (aid : Nat) (u : ProfileLink) (us : List ProfileLink)
    (m5 : Message) (hb : buyer_initiated_types.contains m5.type = false)
    (hr : reply_types.contains m5.type = false) (hus : us ≠ []) :
    set_roles aid u us m5 =
      (if m5.type = .ORDER_CONFIRMED_BY_ADMIN then
        if (us.getLastD u).userId = aid then
          { m5 with i_am_seller := some true, i_am_buyer := some false }
        else { m5 with i_am_seller := some false, i_am_buyer := some true }
      else if m5.type = .REFUND_BY_ADMIN then
        if (us.getLastD u).userId = aid then
          { m5 with i_am_seller := some false, i_am_buyer := some true }
        else { m5 with i_am_seller := some true, i_am_buyer := some false }
      else m5) := by
  unfold set_roles
  rw [if_neg (by rw [hb]; exact Bool.false_ne_true),
    if_neg (by rw [hr]; exact Bool.false_ne_true),
    if_pos (show (!us.isEmpty) = true by simp [hus])]

/-- A reply/refund type is never in the buyer-initiated list. -/
theorem reply_not_buyer (t : MessageTypes) (h : reply_types.contains t = true) :
    buyer_initiated_types.contains t = false := by
  revert h
  cases t <;> decide

/-- The two admin-mediated types are in neither attribution list. -/
theorem admin_types_unlisted :
    buyer_initiated_types.contains .ORDER_CONFIRMED_BY_ADMIN = false
      ∧ reply_types.contains .ORDER_CONFIRMED_BY_ADMIN = false
      ∧ buyer_initiated_types.contains .REFUND_BY_ADMIN = false
      ∧ reply_types.contains .REFUND_BY_ADMIN = false := by
  decide

/-- The complete behaviour of the role-attribution stage on a message whose
role and initiator fields are still unset. -/
theorem apply_roles_spec (aid : Nat) (m : Message)
    (hib : m.i_am_buyer = none) (his : m.i_am_seller = none)
    (hii : m.initiator_id = none) (hiu : m.initiator_username = none) :
    (m.html.profileLinks = [] →
        (apply_roles aid m).initiator_id = none
        ∧ (apply_roles aid m).initiator_username = none
        ∧ (apply_roles aid m).i_am_buyer = none
        ∧ (apply_roles aid m).i_am_seller = none)
    ∧ (∀ u us, m.html.profileLinks = u :: us →
        (apply_roles aid m).initiator_id = some u.userId
        ∧ (apply_roles aid m).initiator_username = some u.text
        ∧ (buyer_initiated_types.contains m.type = true →
            ((u.userId = aid → (apply_roles aid m).i_am_buyer = some true
                ∧ (apply_roles aid m).i_am_seller = some false)
             ∧ (¬ u.userId = aid → (apply_roles aid m).i_am_buyer = some false
                ∧ (apply_roles aid m).i_am_seller = some true)))
        ∧ (reply_types.contains m.type = true →
            ((u.userId = aid → (apply_roles aid m).i_am_buyer = some false
                ∧ (apply_roles aid m).i_am_seller = some true)
             ∧ (¬ u.userId = aid → (apply_roles aid m).i_am_buyer = some true
                ∧ (apply_roles aid m).i_am_seller = some false)))
        ∧ (us ≠ [] → m.type = .ORDER_CONFIRMED_BY_ADMIN →
            (((us.getLastD u).userId = aid → (apply_roles aid m).i_am_seller = some true
                ∧ (apply_roles aid m).i_am_buyer = some false)
             ∧ (¬ (us.getLastD u).userId = aid → (apply_roles aid m).i_am_seller = some false
                ∧ (apply_roles aid m).i_am_buyer = some true)))
        ∧ (us ≠ [] → m.type = .REFUND_BY_ADMIN →
            (((us.getLastD u).userId = aid → (apply_roles aid m).i_am_seller = some false
                ∧ (apply_roles aid m).i_am_buyer = some true)
             ∧ (¬ (us.getLastD u).userId = aid → (apply_roles aid m).i_am_seller = some true
                ∧ (apply_roles aid m).i_am_buyer = some false)))) := by
  constructor
  · intro h
    rw [apply_roles_nil aid m h]
    exact ⟨hii, hiu, hib, his⟩
  · intro u us h
    rw [apply_roles_cons aid m u us h]
    refine ⟨?_, ?_, ?_, ?_, ?_, ?_⟩
    · obtain ⟨ib2, isl2, hsr⟩ := set_roles_shape aid u us
        { m with initiator_username := some u.text, initiator_id := some u.userId }
      rw [hsr]
    · obtain ⟨ib2, isl2, hsr⟩ := set_roles_shape aid u us
        { m with initiator_username := some u.text, initiator_id := some u.userId }
      rw [hsr]
    · intro hbuy
      rw [set_roles_buyer aid u us
        { m with initiator_username := some u.text, initiator_id := some u.userId } hbuy]
      constructor
      · intro he
        rw [if_pos he]
        exact ⟨rfl, rfl⟩
      · intro hne
        rw [if_neg hne]
        exact ⟨rfl, rfl⟩
    · intro hrep
      rw [set_roles_reply aid u us
        { m with initiator_username := some u.text, initiator_id := some u.userId } (reply_not_buyer m.type hrep) hrep]
      constructor
      · intro he
        rw [if_pos he]
        exact ⟨rfl, rfl⟩
      · intro hne
        rw [if_neg hne]
        exact ⟨rfl, rfl⟩
    · intro hus hty
      rw [set_roles_admin aid u us
        { m with initiator_username := some u.text, initiator_id := some u.userId } (by rw [hty]; decide) (by rw [hty]; decide) hus]
      rw [if_pos hty]
      constructor
      · intro he
        rw [if_pos he]
        exact ⟨rfl, rfl⟩
      · intro hne
        rw [if_neg hne]
        exact ⟨rfl, rfl⟩
    · intro hus hty
      rw [set_roles_admin aid u us
        { m with initiator_username := some u.text, initiator_id := some u.userId } (by rw [hty]; decide) (by rw [hty]; decide) hus]
      rw [if_neg (by rw [hty]; decide), if_pos hty]
      constructor
      · intro he
        rw [if_pos he]
        exact ⟨rfl, rfl⟩
      · intro hne
        rw [if_neg hne]
        exact ⟨rfl, rfl⟩

/-- Pass 2 on a message of non-NON_SYSTEM type is the role stage applied to
the badge-processed message, whose html, type, role and initiator fields
agree with the input. -/
theorem pass2_message_roles (acc : AccountCtx) (st : ParseState) (m : Message)
    (ht : ¬ m.type = .NON_SYSTEM) :
    ∃ m4, pass2_message acc st m = apply_roles acc.accountId m4
      ∧ m4.html = m.html ∧ m4.type = m.type
      ∧ m4.i_am_buyer = m.i_am_buyer ∧ m4.i_am_seller = m.i_am_seller
      ∧ m4.initiator_id = m.initiator_id
      ∧ m4.initiator_username = m.initiator_username := by
  simp only [pass2_message]
  obtain ⟨e, s, mo, ar, h1⟩ := apply_badge_flags_shape
    { m with author := st.ids m.author_id, chat_name := st.interlocutor_username,
             badge := pass2_badge (st.badges m.author_id) }
  rw [h1]
  obtain ⟨a, h2⟩ := apply_autoreply_shape
    { m with author := st.ids m.author_id, chat_name := st.interlocutor_username,
             badge := pass2_badge (st.badges m.author_id),
             is_employee := e, is_support := s, is_moderation := mo, is_arbitration := ar }
  rw [h2]
  obtain ⟨bb, h3⟩ := apply_default_badge_shape
    { m with author := st.ids m.author_id, chat_name := st.interlocutor_username,
             badge := pass2_badge (st.badges m.author_id),
             is_employee := e, is_support := s, is_moderation := mo, is_arbitration := ar,
             is_autoreply := a }
  rw [h3]
  rw [if_neg ht]
  exact ⟨_, rfl, rfl, rfl, rfl, rfl, rfl, rfl⟩

/-- C2: for every classified system message (author id 0), the first profile
link supplies the initiator; for buyer-initiated types the initiator is the
buyer iff it is the local account, else the seller; for reply/refund types
the mapping is inverted; for the two admin-mediated types with at least two
links the last link's user id decides, with the assignment inverted between
them; with zero links no role flags are set. -/
theorem claim_C2 (gmt : Option Str → MessageTypes) (acc : AccountCtx)
    (cid : ChatId) (iid : Option Nat) (iname : Option Str) (k : Nat)
    (rs : List RawMessage) :
    ∀ m ∈ parse_messages gmt acc cid iid iname k rs,
      ¬ m.type = .NON_SYSTEM →
      (m.author_id = 0
      ∧ (m.html.profileLinks = [] →
          m.initiator_id = none ∧ m.initiator_username = none
          ∧ m.i_am_buyer = none ∧ m.i_am_seller = none)
      ∧ ∀ u us, m.html.profileLinks = u :: us →
          m.initiator_id = some u.userId ∧ m.initiator_username = some u.text
          ∧ (buyer_initiated_types.contains m.type = true →
              ((u.userId = acc.accountId →
                  m.i_am_buyer = some true ∧ m.i_am_seller = some false)
               ∧ (¬ u.userId = acc.accountId →
                  m.i_am_buyer = some false ∧ m.i_am_seller = some true)))
          ∧ (reply_types.contains m.type = true →
              ((u.userId = acc.accountId →
                  m.i_am_buyer = some false ∧ m.i_am_seller = some true)
               ∧ (¬ u.userId = acc.accountId →
                  m.i_am_buyer = some true ∧ m.i_am_seller = some false)))
          ∧ (us ≠ [] → m.type = .ORDER_CONFIRMED_BY_ADMIN →
              (((us.getLastD u).userId = acc.accountId →
                  m.i_am_seller = some true ∧ m.i_am_buyer = some false)
               ∧ (¬ (us.getLastD u).userId = acc.accountId →
                  m.i_am_seller = some false ∧ m.i_am_buyer = some true)))
          ∧ (us ≠ [] → m.type = .REFUND_BY_ADMIN →
              (((us.getLastD u).userId = acc.accountId →
                  m.i_am_seller = some false ∧ m.i_am_buyer = some true)
               ∧ (¬ (us.getLastD u).userId = acc.accountId →
                  m.i_am_seller = some true ∧ m.i_am_buyer = some false)))) := by
  intro m hm htype
  obtain ⟨cname, r, rfl⟩ := parse_messages_shape gmt acc cid iid iname k rs m hm
  obtain ⟨hid, hhtml, hauth, htext, hbot, hbv, hil, hin, htypeq⟩ :=
    pass2_build_fields gmt acc cid iid (pass1 gmt acc cid iid iname k rs) cname r
  have htypeb : ¬ (build_message gmt cid iid cname r
      (extract_content acc cid r.author r.html)).type = .NON_SYSTEM := by
    intro hcon
    apply htype
    rw [htypeq]
    exact hcon
  have hauthor0 : r.author = 0 := by
    by_contra hne
    apply htypeb
    show (if r.author ≠ 0 then MessageTypes.NON_SYSTEM
          else gmt (extract_content acc cid r.author r.html).text) = .NON_SYSTEM
    rw [if_pos hne]
  obtain ⟨m4, hEq, hm4html, hm4type, hm4ib, hm4is, hm4ii, hm4iu⟩ :=
    pass2_message_roles acc (pass1 gmt acc cid iid iname k rs)
      (build_message gmt cid iid cname r (extract_content acc cid r.author r.html)) htypeb
  have hm4ibn : m4.i_am_buyer = none := hm4ib
  have hm4isn : m4.i_am_seller = none := hm4is
  have hm4iin : m4.initiator_id = none := hm4ii
  have hm4iun : m4.initiator_username = none := hm4iu
  have hspec := apply_roles_spec acc.accountId m4 hm4ibn hm4isn hm4iin hm4iun
  have hm4links : m4.html.profileLinks = r.html.profileLinks := by
    rw [hm4html]
    rfl
  have htype4 : (pass2_message acc (pass1 gmt acc cid iid iname k rs)
      (build_message gmt cid iid cname r (extract_content acc cid r.author r.html))).type
      = m4.type := by
    rw [hEq]
    obtain ⟨iu2, ii2, ib2, isl2, hrs⟩ := apply_roles_shape acc.accountId m4
    rw [hrs]
  refine ⟨?_, ?_, ?_⟩
  · rw [hauth, hauthor0]
  · intro hl
    rw [hhtml] at hl
    rw [hEq]
    exact hspec.1 (hm4links.trans hl)
  · intro u us hl
    rw [hhtml] at hl
    rw [htype4]
    rw [hEq]
    exact hspec.2 u us (hm4links.trans hl)

/-- C2 witness: the spec scenario — a system message typed ORDER_CONFIRMED
with exactly one profile link for user 42 against local account 100 yields
initiator 42, i_am_seller true, i_am_buyer false. -/
theorem claim_C2_witness :
    c2_msg ∈ c2_out
      ∧ c2_msg.initiator_id = some 42
      ∧ c2_msg.i_am_seller = some true
      ∧ c2_msg.i_am_buyer = some false := by
  have hmem : c2_msg ∈ c2_out := by decide
  have h := (claim_C2 gmtOC accDemo (.int 5) none none 0 [⟨11, 0, c2_html⟩]
      c2_msg hmem (by decide)).2.2 ⟨"Ivan".data, 42⟩ [] (by decide)
  have hroles := (h.2.2.1 (by decide)).2 (by decide)
  exact ⟨hmem, h.1, hroles.2, hroles.1⟩

/-- C8: every private-chat record with an image-link anchor produces a
message with null text, image name from the anchor's alt text and image link
from its href; by_bot is set iff the name matches the current bot stamp,
by_vertex iff it matches the legacy stamp, and never both. -/
theorem claim_C8 (gmt : Option Str → MessageTypes) (acc : AccountCtx)
    (cid : ChatId) (iid : Option Nat) (iname : Option Str) (k : Nat)
    (rs : List RawMessage) :
    ∀ m ∈ parse_messages gmt acc cid iid iname k rs,
      chat_id_private cid = true →
      ∀ tag, m.html.imageAnchor = some tag →
        m.text = none
        ∧ m.image_name = tag.alt
        ∧ m.image_link = tag.href
        ∧ m.by_bot = matches_current_stamp tag.alt
        ∧ m.by_vertex = matches_legacy_stamp tag.alt
        ∧ ¬ (m.by_bot = true ∧ m.by_vertex = true) := by
  intro m hm hpriv tag htag
  obtain ⟨cname, r, rfl⟩ := parse_messages_shape gmt acc cid iid iname k rs m hm
  obtain ⟨hid, hhtml, hauth, htext, hbot, hbv, hil, hin, htypeq⟩ :=
    pass2_build_fields gmt acc cid iid (pass1 gmt acc cid iid iname k rs) cname r
  rw [hhtml] at htag
  have hext : extract_content acc cid r.author r.html =
      { text := none, image_link := tag.href, image_name := tag.alt,
        by_bot := matches_current_stamp tag.alt,
        by_vertex := !matches_current_stamp tag.alt && matches_legacy_stamp tag.alt } := by
    unfold extract_content
    rw [htag]
    simp [hpriv]
  rw [htext, hbot, hbv, hil, hin, hext]
  refine ⟨rfl, rfl, rfl, rfl, ?_, ?_⟩
  · show (!matches_current_stamp tag.alt && matches_legacy_stamp tag.alt)
        = matches_legacy_stamp tag.alt
    cases hml : matches_legacy_stamp tag.alt
    · simp
    · have halt : tag.alt = some vertex_image_name := by
        unfold matches_legacy_stamp at hml
        simpa using hml
      rw [halt]
      decide
  · rintro ⟨ha, hb2⟩
    have ha3 : matches_current_stamp tag.alt = true := ha
    have hb3 : (!matches_current_stamp tag.alt && matches_legacy_stamp tag.alt) = true := hb2
    rw [ha3] at hb3
    simp at hb3

/-- C8 witness: a private-chat image record with the current-stamp filename
yields null text, the anchor's fields, by_bot set and by_vertex unset. -/
theorem claim_C8_witness :
    c8_msg ∈ c8_out
      ∧ c8_msg.text = none
      ∧ c8_msg.image_name = some "funpay_cardinal_image.png".data
      ∧ c8_msg.image_link = some "https://funpay.com/img.png".data
      ∧ c8_msg.by_bot = true
      ∧ c8_msg.by_vertex = false := by
  have hmem : c8_msg ∈ c8_out := by decide
  have h := claim_C8 gmtU accDemo (.int 5) none none 0 [⟨3, 100, c8_html⟩] c8_msg hmem
    (by decide)
    ⟨some "funpay_cardinal_image.png".data, some "https://funpay.com/img.png".data⟩
    (by decide)
  refine ⟨hmem, h.1, ?_, ?_, ?_, ?_⟩
  · rw [h.2.1]
  · rw [h.2.2.1]
  · rw [h.2.2.2.1]
    decide
  · rw [h.2.2.2.2.1]
    decide

/-- Left component of a true Boolean conjunction. -/
theorem band_true_left {a b : Bool} (h : (a && b) = true) : a = true :=
  (Bool.and_eq_true a b ▸ h).1

/-- Right component of a true Boolean conjunction. -/
theorem band_true_right {a b : Bool} (h : (a && b) = true) : b = true :=
  (Bool.and_eq_true a b ▸ h).2

/-- Flag values computed by the badge stage: a truthy badge always sets
is_employee, and the elif chain sets at most the first matching role flag. -/
theorem apply_badge_flags_values (m : Message) :
    (apply_badge_flags m).is_employee = (m.is_employee || truthyStr m.badge)
    ∧ (apply_badge_flags m).is_support
        = (m.is_support || (truthyStr m.badge && badge_in m.badge support_phrases))
    ∧ (apply_badge_flags m).is_moderation
        = (m.is_moderation || (truthyStr m.badge && !badge_in m.badge support_phrases
            && badge_in m.badge moderation_phrases))
    ∧ (apply_badge_flags m).is_arbitration
        = (m.is_arbitration || (truthyStr m.badge && !badge_in m.badge support_phrases
            && !badge_in m.badge moderation_phrases
            && badge_in m.badge arbitration_phrases)) := by
  unfold apply_badge_flags
  repeat' split
  all_goals simp_all

/-- Flag value computed by the auto-reply stage. -/
theorem apply_autoreply_values (m : Message) :
    (apply_autoreply m).is_autoreply = (m.is_autoreply || autoreply_label m.html) := by
  unfold apply_autoreply autoreply_label
  repeat' split
  all_goals simp_all

/-- The final flag values of pass 2 in terms of the input message and the
resolved badge of its author. -/
theorem pass2_message_flag_values (acc : AccountCtx) (st : ParseState) (m : Message) :
    (pass2_message acc st m).is_employee
        = (m.is_employee || truthyStr (pass2_badge (st.badges m.author_id)))
    ∧ (pass2_message acc st m).is_support
        = (m.is_support || (truthyStr (pass2_badge (st.badges m.author_id))
            && badge_in (pass2_badge (st.badges m.author_id)) support_phrases))
    ∧ (pass2_message acc st m).is_moderation
        = (m.is_moderation || (truthyStr (pass2_badge (st.badges m.author_id))
            && !badge_in (pass2_badge (st.badges m.author_id)) support_phrases
            && badge_in (pass2_badge (st.badges m.author_id)) moderation_phrases))
    ∧ (pass2_message acc st m).is_arbitration
        = (m.is_arbitration || (truthyStr (pass2_badge (st.badges m.author_id))
            && !badge_in (pass2_badge (st.badges m.author_id)) support_phrases
            && !badge_in (pass2_badge (st.badges m.author_id)) moderation_phrases
            && badge_in (pass2_badge (st.badges m.author_id)) arbitration_phrases))
    ∧ (pass2_message acc st m).is_autoreply
        = (m.is_autoreply || autoreply_label m.html) := by
  simp only [pass2_message]
  obtain ⟨hv1e, hv1s, hv1m, hv1a⟩ := apply_badge_flags_values
    { m with author := st.ids m.author_id, chat_name := st.interlocutor_username,
             badge := pass2_badge (st.badges m.author_id) }
  obtain ⟨e, s, mo, ar, h1⟩ := apply_badge_flags_shape
    { m with author := st.ids m.author_id, chat_name := st.interlocutor_username,
             badge := pass2_badge (st.badges m.author_id) }
  rw [h1] at hv1e hv1s hv1m hv1a
  rw [h1]
  obtain ⟨a, h2⟩ := apply_autoreply_shape
    { m with author := st.ids m.author_id, chat_name := st.interlocutor_username,
             badge := pass2_badge (st.badges m.author_id),
             is_employee := e, is_support := s, is_moderation := mo, is_arbitration := ar }
  have hv2 : a = (m.is_autoreply || autoreply_label m.html) := by
    have hv := apply_autoreply_values
      { m with author := st.ids m.author_id, chat_name := st.interlocutor_username,
               badge := pass2_badge (st.badges m.author_id),
               is_employee := e, is_support := s, is_moderation := mo, is_arbitration := ar }
    rw [h2] at hv
    exact hv
  rw [h2]
  obtain ⟨bb, h3⟩ := apply_default_badge_shape
    { m with author := st.ids m.author_id, chat_name := st.interlocutor_username,
             badge := pass2_badge (st.badges m.author_id),
             is_employee := e, is_support := s, is_moderation := mo, is_arbitration := ar,
             is_autoreply := a }
  rw [h3]
  split
  · exact ⟨hv1e, hv1s, hv1m, hv1a, hv2⟩
  · obtain ⟨iu, ii, ib, isl, h4⟩ := apply_roles_shape acc.accountId
      { m with author := st.ids m.author_id, chat_name := st.interlocutor_username,
               badge := bb,
               is_employee := e, is_support := s, is_moderation := mo, is_arbitration := ar,
               is_autoreply := a }
    rw [h4]
    exact ⟨hv1e, hv1s, hv1m, hv1a, hv2⟩

/-- C10: in every parsed message at most one of is_support, is_moderation,
is_arbitration is set; any of them implies is_employee; is_employee is set
exactly when the author's resolved success-label badge text is non-empty,
even when it matches none of the three phrase sets; and the auto-reply
default label drives only is_autoreply. -/
theorem claim_C10 (gmt : Option Str → MessageTypes) (acc : AccountCtx)
    (cid : ChatId) (iid : Option Nat) (iname : Option Str) (k : Nat)
    (rs : List RawMessage) :
    ∀ m ∈ parse_messages gmt acc cid iid iname k rs,
      ((m.is_support = true ∨ m.is_moderation = true ∨ m.is_arbitration = true) →
          m.is_employee = true)
      ∧ (m.is_support = true → m.is_moderation = false ∧ m.is_arbitration = false)
      ∧ (m.is_moderation = true → m.is_arbitration = false)
      ∧ m.is_employee
          = truthyStr (pass2_badge ((pass1 gmt acc cid iid iname k rs).badges m.author_id))
      ∧ m.is_autoreply = autoreply_label m.html := by
  intro m hm
  obtain ⟨cname, r, rfl⟩ := parse_messages_shape gmt acc cid iid iname k rs m hm
  obtain ⟨hid, hhtml, hauth, htext, hbot, hbv, hil, hin, htypeq⟩ :=
    pass2_build_fields gmt acc cid iid (pass1 gmt acc cid iid iname k rs) cname r
  obtain ⟨hfe, hfs, hfm, hfa, hfauto⟩ := pass2_message_flag_values acc
    (pass1 gmt acc cid iid iname k rs)
    (build_message gmt cid iid cname r (extract_content acc cid r.author r.html))
  have he : (pass2_message acc (pass1 gmt acc cid iid iname k rs)
      (build_message gmt cid iid cname r (extract_content acc cid r.author r.html))).is_employee
      = truthyStr (pass2_badge ((pass1 gmt acc cid iid iname k rs).badges r.author)) :=
    hfe.trans rfl
  have hs : (pass2_message acc (pass1 gmt acc cid iid iname k rs)
      (build_message gmt cid iid cname r (extract_content acc cid r.author r.html))).is_support
      = (truthyStr (pass2_badge ((pass1 gmt acc cid iid iname k rs).badges r.author))
         && badge_in (pass2_badge ((pass1 gmt acc cid iid iname k rs).badges r.author))
              support_phrases) :=
    hfs.trans rfl
  have hmo : (pass2_message acc (pass1 gmt acc cid iid iname k rs)
      (build_message gmt cid iid cname r (extract_content acc cid r.author r.html))).is_moderation
      = (truthyStr (pass2_badge ((pass1 gmt acc cid iid iname k rs).badges r.author))
         && !badge_in (pass2_badge ((pass1 gmt acc cid iid iname k rs).badges r.author))
              support_phrases
         && badge_in (pass2_badge ((pass1 gmt acc cid iid iname k rs).badges r.author))
              moderation_phrases) :=
    hfm.trans rfl
  have har : (pass2_message acc (pass1 gmt acc cid iid iname k rs)
      (build_message gmt cid iid cname r (extract_content acc cid r.author r.html))).is_arbitration
      = (truthyStr (pass2_badge ((pass1 gmt acc cid iid iname k rs).badges r.author))
         && !badge_in (pass2_badge ((pass1 gmt acc cid iid iname k rs).badges r.author))
              support_phrases
         && !badge_in (pass2_badge ((pass1 gmt acc cid iid iname k rs).badges r.author))
              moderation_phrases
         && badge_in (pass2_badge ((pass1 gmt acc cid iid iname k rs).badges r.author))
              arbitration_phrases) :=
    hfa.trans rfl
  have hauto : (pass2_message acc (pass1 gmt acc cid iid iname k rs)
      (build_message gmt cid iid cname r (extract_content acc cid r.author r.html))).is_autoreply
      = autoreply_label r.html :=
    hfauto.trans rfl
  refine ⟨?_, ?_, ?_, ?_, ?_⟩
  · intro h
    rw [he]
    rcases h with h | h | h
    · rw [hs] at h
      exact band_true_left h
    · rw [hmo] at h
      exact band_true_left (band_true_left h)
    · rw [har] at h
      exact band_true_left (band_true_left (band_true_left h))
  · intro h
    rw [hs] at h
    have hsup := band_true_right h
    constructor
    · rw [hmo, hsup]
      simp
    · rw [har, hsup]
      simp
  · intro h
    rw [hmo] at h
    have hmod := band_true_right h
    rw [har, hmod]
    simp
  · rw [hauth]
    exact he
  · rw [hhtml]
    exact hauto

/-- C10 witness: a record whose author block carries the support badge yields
is_employee, is_support and no other role flag. -/
theorem claim_C10_witness :
    c10_msg ∈ c10_out
      ∧ c10_msg.is_employee = true
      ∧ c10_msg.is_support = true
      ∧ c10_msg.is_moderation = false
      ∧ c10_msg.is_arbitration = false := by
  have hmem : c10_msg ∈ c10_out := by decide
  have h := claim_C10 gmtU accDemo (.int 5) none none 0 c10_records c10_msg hmem
  refine ⟨hmem, ?_, by decide, by decide, by decide⟩
  rw [h.2.2.2.1]
  decide

/-- A bind whose continuation always succeeds fails exactly when its first
stage fails. -/
theorem except_bind_ok {α β : Type} (x : Except PyErr α) (g : α → β) (e : PyErr)
    (h : (x >>= fun r => Except.ok (g r)) = .error e) : x = .error e := by
  cases x with
  | error e0 =>
    have h2 : (Except.error e0 : Except PyErr β) = .error e := h
    injection h2 with he
    rw [he]
  | ok a =>
    exact Except.noConfusion (h : (Except.ok (g a) : Except PyErr β) = .error e)

/-- An error of a monadic fold over Except comes from one application of the
folded function. -/
theorem foldlM_except_err {α β : Type} (f : β → α → Except PyErr β) (P : PyErr → Prop)
    (hf : ∀ b a e, f b a = .error e → P e) :
    ∀ (l : List α) (b : β) (e : PyErr), l.foldlM f b = .error e → P e := by
  intro l
  induction l with
  | nil =>
    intro b e h
    rw [List.foldlM_nil] at h
    exact Except.noConfusion (h : (Except.ok b : Except PyErr β) = .error e)
  | cons x xs ih =>
    intro b e h
    rw [List.foldlM_cons] at h
    cases hf0 : f b x with
    | error e0 =>
      rw [hf0] at h
      have h2 : (Except.error e0 : Except PyErr β) = .error e := h
      injection h2 with he
      rw [← he]
      exact hf b x e0 hf0
    | ok b1 =>
      rw [hf0] at h
      have h2 : xs.foldlM f b1 = .error e := h
      exact ih b1 e h2

/-- A failing subcategory entry raises ValueError (unparsable link id) or
KeyError (unknown owning game), never anything else. -/
theorem process_subcat_item_err (j : Nat) (p : List (Nat × Category) × SetupState)
    (k : SubcatEntry) (e : PyErr) (h : process_subcat_item j p k = .error e) :
    e = .valueError ∨ e = .keyError := by
  unfold process_subcat_item at h
  cases hs : link_subcat_id k.link with
  | none =>
    rw [hs] at h
    injection h with he
    exact Or.inl he.symm
  | some sid =>
    rw [hs] at h
    cases hd : dlookup p.1 j with
    | none =>
      rw [hd] at h
      injection h with he
      exact Or.inr he.symm
    | some cat =>
      rw [hd] at h
      exact absurd h (by simp)

/-- A failing game div raises ValueError or KeyError, never anything else. -/
theorem process_game_div_err (s : SetupState) (g : GameDiv) (e : PyErr)
    (h : process_game_div s g = .error e) : e = .valueError ∨ e = .keyError := by
  unfold process_game_div at h
  have h2 := except_bind_ok _ _ e h
  exact foldlM_except_err _ (fun e2 => e2 = .valueError ∨ e2 = .keyError)
    (fun p j e2 hin =>
      foldlM_except_err (process_subcat_item j.dataId)
        (fun e3 => e3 = .valueError ∨ e3 = .keyError)
        (fun q kk e3 hq => process_subcat_item_err j.dataId q kk e3 hq)
        j.items p e2 hin)
    g.subcatLists _ e h2

/-- A failing category setup raises ValueError or KeyError, never anything
else (in particular never UnauthorizedError). -/
theorem setup_categories_err (tables : List (List GameDiv)) (st : CategoriesState)
    (e : PyErr) (h : setup_categories tables st = .error e) :
    e = .valueError ∨ e = .keyError := by
  unfold setup_categories at h
  by_cases h1 : tables.isEmpty
  · rw [if_pos h1] at h
    exact absurd h (by simp)
  · rw [if_neg h1] at h
    by_cases h2 : (selected_games_divs tables).isEmpty
    · rw [if_pos h2] at h
      exact absurd h (by simp)
    · rw [if_neg h2] at h
      have h3 := except_bind_ok _ _ e h
      exact foldlM_except_err process_game_div
        (fun e2 => e2 = .valueError ∨ e2 = .keyError)
        process_game_div_err (selected_games_divs tables) ⟨0, 0, st⟩ e h3

/-- Missing or empty game-list containers leave the index untouched and
raise nothing. -/
theorem setup_categories_empty (tables : List (List GameDiv)) (st : CategoriesState)
    (h : tables = [] ∨ selected_games_divs tables = []) :
    setup_categories tables st = .ok st := by
  unfold setup_categories
  rcases h with h | h
  · rw [h]
    rfl
  · by_cases ht : tables.isEmpty
    · rw [if_pos ht]
    · rw [if_neg ht,
        if_pos (show (selected_games_divs tables).isEmpty = true by rw [h]; rfl)]

/-- C9: parsing a page expected to require authentication raises the
authentication-failure exception exactly when the authenticated-user marker
is absent; with the marker present, an empty or missing game-list container
yields an empty category/subcategory index — the setup returns the index
unchanged — without raising any error. -/
theorem claim_C9 (page : HomePage) (initiated : Bool) (st : CategoriesState)
    (tables : List (List GameDiv)) (st0 : CategoriesState) :
    (parse_account_data page initiated st = .error .unauthorizedError
      ↔ page.userLinkName = none)
    ∧ ((tables = [] ∨ selected_games_divs tables = []) →
        setup_categories tables st0 = .ok st0)
    ∧ (∀ uname, page.userLinkName = some uname →
        (page.gamesTables = [] ∨ selected_games_divs page.gamesTables = []) →
        parse_account_data page false st = .ok (account_data_of page uname, st)) := by
  refine ⟨⟨?_, ?_⟩, setup_categories_empty tables st0, ?_⟩
  · intro h
    cases hm : page.userLinkName with
    | none => rfl
    | some uname =>
      exfalso
      unfold parse_account_data at h
      rw [hm] at h
      cases hi : initiated
      · rw [hi] at h
        have h2 : (match setup_categories page.gamesTables st with
            | .ok st' => Except.ok (account_data_of page uname, st')
            | .error e => Except.error e) = Except.error PyErr.unauthorizedError := h
        cases hsc : setup_categories page.gamesTables st with
        | ok st' =>
          rw [hsc] at h2
          exact absurd h2 (by simp)
        | error e2 =>
          rw [hsc] at h2
          have h3 : (Except.error e2 : Except PyErr (AccountData × CategoriesState))
              = .error .unauthorizedError := h2
          injection h3 with he
          rcases setup_categories_err page.gamesTables st e2 hsc with h4 | h4 <;>
            rw [h4] at he <;> exact absurd he (by decide)
      · rw [hi] at h
        exact absurd (h : (Except.ok (account_data_of page uname, st) : Except PyErr _)
          = .error .unauthorizedError) (by simp)
  · intro h
    unfold parse_account_data
    rw [h]
  · intro uname hm hempty
    unfold parse_account_data
    rw [hm]
    have hsc := setup_categories_empty page.gamesTables st hempty
    show (match setup_categories page.gamesTables st with
      | .ok st' => Except.ok (account_data_of page uname, st')
      | .error e => Except.error e) = Except.ok (account_data_of page uname, st)
    rw [hsc]

/-- C9 witness: a marker-less page raises UnauthorizedError, and a page with
the marker but no game-list container parses successfully with an unchanged
empty index. -/
theorem claim_C9_witness :
    parse_account_data c9_page_no_marker false emptyCategories
        = .error .unauthorizedError
      ∧ parse_account_data c9_page_empty false emptyCategories
          = .ok (account_data_of c9_page_empty "user".data, emptyCategories)
      ∧ (account_data_of c9_page_empty "user".data).username = "user".data := by
  refine ⟨?_, ?_, rfl⟩
  · exact (claim_C9 c9_page_no_marker false emptyCategories [] emptyCategories).1.mpr rfl
  · exact (claim_C9 c9_page_empty false emptyCategories [] emptyCategories).2.2
      "user".data rfl (Or.inl rfl)

end FunPay
